import Mathlib

/-!
Verification development for the AIONMECH universal CNC pendant firmware
(`esp32_pendant_serial_universal.ino`, the `ULP-ESP32 v2.0.0-UNIVERSAL`
sketch).  The firmware is shallowly embedded: every global variable of the
sketch (including the `static` locals of the input handlers, which are
state that persists across loop iterations) becomes a field of
`PendantState`; every handler becomes a pure function from the current
`millis()` value, the raw input levels and the state to a new state plus a
list of emitted serial messages.  Machine integers are modelled as `Int` /
`Nat` (the sketch's values stay far from every overflow boundary except the
explicit `±1000000` clamp, which is embedded); `float` data that is only
parsed, stored and echoed is modelled as `ℚ`; Arduino `String`s are
`List Char`.  Display drawing has no observable effect on the serial
protocol or on the control state other than the redraw bookkeeping flags,
so the drawing calls are embedded only through their flag updates.

Times are `millis()` values in `Nat`; the firmware's `unsigned long`
subtractions `now - t` agree with truncated `Nat` subtraction whenever
`t ≤ now`, which holds for every timestamp the sketch itself records.
-/

namespace Pendant

/-- Machine profiles, from the `MachineType` enum of the sketch. -/
inductive MachineType
  | MACHINE_FIRECONTROL | MACHINE_CUTCONTROL | MACHINE_MANUAL
  | MACHINE_MACH3 | MACHINE_MACH4 | MACHINE_LINUXCNC
  | MACHINE_UCCNC | MACHINE_CARBIDE | MACHINE_UGS
  deriving DecidableEq, Repr

/-- Axis selection, from the `AxisType` enum (`AXIS_Z=0, AXIS_Y=1, AXIS_X=2`). -/
inductive AxisType | AXIS_Z | AXIS_Y | AXIS_X
  deriving DecidableEq, Repr

/-- Speed selection, from the `SpeedType` enum. -/
inductive SpeedType | SPEED_SLOW | SPEED_MEDIUM | SPEED_FAST
  deriving DecidableEq, Repr

/-- Jog distance level, from the `JogDistance` enum. -/
inductive JogDistance | JOG_FINE | JOG_SMALL | JOG_MEDIUM | JOG_LARGE
  deriving DecidableEq, Repr

/-- Feed-rate override level, from the `FeedRate` enum. -/
inductive FeedRate | FEED_25 | FEED_50 | FEED_75 | FEED_100
  deriving DecidableEq, Repr

/-- Coordinate view, from the `CoordView` enum. -/
inductive CoordView | VIEW_WCS | VIEW_MCS
  deriving DecidableEq, Repr

/-- Host motion state, from the `MotionState` enum. -/
inductive MotionState | MS_IDLE | MS_RUN | MS_HOLD
  deriving DecidableEq, Repr

/-- Wire dialect, from the `CommProtocol` enum. -/
inductive CommProtocol | PROTOCOL_LANGMUIR | PROTOCOL_GRBL | PROTOCOL_MACH | PROTOCOL_LINUXCNC
  deriving DecidableEq, Repr

/-- E-stop state, from the `EstopState` enum. -/
inductive EstopState | ESTOP_RELEASED | ESTOP_PRESSED | ESTOP_FAULT
  deriving DecidableEq, Repr

/-- Power state, from the `PowerState` enum (non-`BATTERY_MODE` build). -/
inductive PowerState | POWER_ACTIVE | POWER_COUNTDOWN | POWER_SLEEP
  deriving DecidableEq, Repr

/-- UI view mode, from the `ViewMode` enum. -/
inductive ViewMode | VIEW_NORMAL | VIEW_HELP
  deriving DecidableEq, Repr

open MachineType AxisType SpeedType JogDistance FeedRate CoordView MotionState
open CommProtocol EstopState PowerState ViewMode

/-- The `XYZ` struct of the sketch; `float` fields are modelled as `ℚ`. -/
structure XYZ where
  x : ℚ := 0
  y : ℚ := 0
  z : ℚ := 0
  deriving DecidableEq, Repr

/-! Arduino `String` primitives, modelled over `List Char`. -/

/-- A serial line, as the character list of an Arduino `String`. -/
abbrev Line := List Char

/-- Character list of a Lean string literal. -/
def str (s : String) : Line := s.toList

/-- Arduino `String::startsWith`. -/
def startsWithL (p t : Line) : Bool := p.isPrefixOf t

/-- Arduino `String::substring(from)` (suffix from index `from`). -/
def subFrom (t : Line) (i : Nat) : Line := t.drop i

/-- Arduino `String::substring(from, to)` (characters in `[from, to)`). -/
def subRange (t : Line) (i j : Nat) : Line := (t.take j).drop i

/-- Arduino `String::indexOf(ch, fromIndex)`: index of the first occurrence
of `ch` at position `≥ from`, or `-1`. -/
def indexOfCh (t : Line) (ch : Char) (frm : Nat) : Int :=
  match (t.drop frm).findIdx? (· == ch) with
  | some k => (frm + k : Nat)
  | none => -1

/-- Helper for `indexOfStr`: index of the first position of `t` at which
`p` occurs as a prefix, or `none`. -/
def findSub : Line → Line → Option Nat
  | _, [] => some 0
  | [], _ :: _ => none
  | c :: rest, p =>
    if p.isPrefixOf (c :: rest) then some 0
    else (findSub rest p).map (· + 1)

/-- Arduino `String::indexOf(str)`: index of the first occurrence of the
substring, or `-1`. -/
def indexOfStr (t p : Line) : Int :=
  match findSub t p with
  | some k => (k : Nat)
  | none => -1

/-- Arduino `String::replace(" ","")` as used by the sketch: delete spaces. -/
def dropSpaces (t : Line) : Line := t.filter (· ≠ ' ')

/-- Whitespace test used by `trim` / `atol` / `strtod`. -/
def isWS (c : Char) : Bool := c == ' ' || c == '\t' || c == '\n' || c == '\r'

/-- Arduino `String::trim` (strip leading and trailing whitespace). -/
def trimL (t : Line) : Line :=
  ((t.dropWhile isWS).reverse.dropWhile isWS).reverse

/-- Value of a list of decimal digits. -/
def digitsVal (ds : Line) : Nat :=
  ds.foldl (fun a c => a * 10 + (c.toNat - '0'.toNat)) 0

/-- Arduino `String::toInt` (C `atol`): skip leading whitespace, optional
sign, then a run of digits; any other input yields `0`. -/
def toIntL (t : Line) : Int :=
  let t := t.dropWhile isWS
  let (neg, t) :=
    match t with
    | '-' :: rest => (true, rest)
    | '+' :: rest => (false, rest)
    | _ => (false, t)
  let ds := t.takeWhile Char.isDigit
  let v : Int := (digitsVal ds : Nat)
  if neg then -v else v

/-- Arduino `String::toFloat` (C `strtod`) restricted to the plain decimal
forms the host protocol uses (optional sign, digits, optional fraction);
any other input yields `0`.  The value is represented exactly in `ℚ`. -/
def toFloatL (t : Line) : ℚ :=
  let t := t.dropWhile isWS
  let (neg, t) :=
    match t with
    | '-' :: rest => (true, rest)
    | '+' :: rest => (false, rest)
    | _ => (false, t)
  let ip := t.takeWhile Char.isDigit
  let t2 := t.drop ip.length
  let fp :=
    match t2 with
    | '.' :: rest => rest.takeWhile Char.isDigit
    | _ => []
  if ip = [] ∧ fp = [] then 0
  else
    let v : ℚ := (digitsVal ip : ℚ) + (digitsVal fp : ℚ) / ((10 : ℚ) ^ fp.length)
    if neg then -v else v

/-- Arduino `String::charAt` (returns the NUL character out of range). -/
def charAtL (t : Line) (i : Nat) : Char := t.getD i (Char.ofNat 0)

/-! Timing constants of the sketch. -/

def HOST_TIMEOUT_MS : Nat := 3500
def LONG_PRESS_THRESHOLD : Nat := 1000
def DEBOUNCE_DELAY : Nat := 50
def SLEEP_COUNTDOWN_TIME : Nat := 5000
def ESTOP_DEBOUNCE : Nat := 100
def HELP_HOLD_TIME : Nat := 1500
def HOST_POS_STALE_MS : Nat := 1200

/-- The complete mutable state of the sketch: every global variable plus the
`static` locals of `handleButton1` / `handleButton2` / `handleEstop`
(`last`, `dbT`) and of `loop` (`lastUI`), which persist across loop
iterations exactly like globals. -/
structure PendantState where
  currentMachine : MachineType := MACHINE_FIRECONTROL
  currentProtocol : CommProtocol := PROTOCOL_LANGMUIR
  currentAxis : AxisType := AXIS_Z
  currentSpeed : SpeedType := SPEED_MEDIUM
  currentJogDistance : JogDistance := JOG_SMALL
  currentFeedRate : FeedRate := FEED_50
  encAedges : Int := 0
  encoderPosition : Int := 0
  lastEncoderPos : Int := 0
  encoderScale : Int := 1
  scaledEncoderPosition : Int := 0
  useImperialUnits : Bool := false
  softwareConnected : Bool := false
  hostArmed : Bool := false
  lastHostPing : Nat := 0
  hostMotionState : MotionState := MS_IDLE
  xPosition : ℚ := 0
  yPosition : ℚ := 0
  zPosition : ℚ := 0
  hostWCS : XYZ := {}
  hostMCS : XYZ := {}
  tHostWCS : Nat := 0
  tHostMCS : Nat := 0
  offG54 : XYZ := {}
  offG55 : XYZ := {}
  offG56 : XYZ := {}
  offG57 : XYZ := {}
  offG58 : XYZ := {}
  offG59 : XYZ := {}
  activeWCS : Line := str "G54"
  coordView : CoordView := VIEW_WCS
  viewLockedByHost : Bool := false
  btn1PressTime : Nat := 0
  btn2PressTime : Nat := 0
  sleepCountdownStart : Nat := 0
  button1Pressed : Bool := false
  button1Processed : Bool := false
  button2Pressed : Bool := false
  button2Processed : Bool := false
  lastToggleState : Bool := true
  currentPowerState : PowerState := POWER_ACTIVE
  lastActivityTime : Nat := 0
  sleepCountdown : Int := 0
  currentEstopState : EstopState := ESTOP_RELEASED
  estopPressed : Bool := false
  estopPressTime : Nat := 0
  systemLocked : Bool := false
  bgR : Nat := 0
  bgG : Nat := 0
  bgB : Nat := 0
  useRGBWheel : Bool := false
  rgbHue : ℚ := 0
  currentViewMode : ViewMode := VIEW_NORMAL
  needsFullRedraw : Bool := true
  needsAxisRedraw : Bool := false
  needsSpeedRedraw : Bool := false
  needsStatusRedraw : Bool := false
  lastPosRedraw : Nat := 0
  bothButtonsHeld : Bool := false
  bothButtonsTime : Nat := 0
  b1Last : Bool := false
  b1DbT : Nat := 0
  b2Last : Bool := false
  b2DbT : Nat := 0
  estopLast : Bool := false
  estopDbT : Nat := 0
  loopLastUI : Nat := 0
  deriving DecidableEq, Repr

/-- The state right after `setup()`. -/
def initialState : PendantState := {}

/-- One serial emission.  Fixed `Serial.println` texts are carried verbatim
by `ln`; printf-formatted lines are carried structurally by a constructor
per format.  The jog constructors additionally record the integer scaled
movement `steps` alongside the printed distance (the wire line carries only
the product `dist = jog-distance × steps` and the sign), so that the
emitted scaled movement is observable in the output trace. -/
inductive OutMsg
  | ln (s : String)
  | rawByte (b : Nat)
  | fwVersion
  | machineEcho (name : String)
  | autoDetected (name : String)
  | unitsEcho (imperial : Bool)
  | softwareEcho (connected : Bool)
  | motionEcho (s : Line)
  | axisEcho (a : AxisType)
  | distanceEcho (v : ℚ)
  | speedEcho (sp : SpeedType)
  | feedrateEcho (f : FeedRate)
  | coordViewEcho (v : CoordView)
  | keyNum (s : String)
  | jogKey (name : String) (press : Bool)
  | jogLangmuir (axis : Char) (positive : Bool) (steps : Int) (dist : ℚ)
  | moveLangmuir (axis : Char) (positive : Bool) (steps : Int) (dist : ℚ) (imperial : Bool)
  | jogGrbl (axis : Char) (positive : Bool) (steps : Int) (dist : ℚ) (feed : Int)
  | jogMach (axis : Char) (positive : Bool) (steps : Int) (dist : ℚ) (feed : Int)
  | jogLinux (axis : Char) (positive : Bool) (steps : Int) (dist : ℚ) (feed : Int)
  | posLine (axis : Char) (v : ℚ)
  | scaleSet (n : Int)
  | encGetScale (n : Int)
  | encGetPos (v : Int)
  | encGetScaled (v : Int)
  | wcsFreshLine (b : Bool)
  | mcsFreshLine (b : Bool)
  | brightnessEcho (n : Int)
  deriving DecidableEq, Repr

/-- Outbound motion (jog) commands: the dialect-specific jog lines emitted
by `sendUniversalJogCommand` and the legacy jog key events emitted by
`handleEncoder` for the Langmuir protocol. -/
def isMotionMsg : OutMsg → Bool
  | .jogLangmuir _ _ _ _ => true
  | .moveLangmuir _ _ _ _ _ => true
  | .jogGrbl _ _ _ _ _ => true
  | .jogMach _ _ _ _ _ => true
  | .jogLinux _ _ _ _ _ => true
  | .jogKey _ _ => true
  | _ => false

/-- Whether an output trace contains a motion command. -/
def emitsMotion (out : List OutMsg) : Bool := out.any isMotionMsg

/-- Signed scaled movement carried by a primary jog line (the duplicate
Langmuir `MOVE:` line of the same event is not counted). -/
def jogSteps : OutMsg → Int
  | .jogLangmuir _ positive steps _ => if positive then steps else -steps
  | .jogGrbl _ positive steps _ _ => if positive then steps else -steps
  | .jogMach _ positive steps _ _ => if positive then steps else -steps
  | .jogLinux _ positive steps _ _ => if positive then steps else -steps
  | _ => 0

/-- Sum of the emitted scaled-movement values of an output trace. -/
def emittedScaledSum (out : List OutMsg) : Int := (out.map jogSteps).sum

/-- The `getMachineName` table of the sketch. -/
def getMachineName : MachineType → String
  | MACHINE_FIRECONTROL => "FIRECONTROL"
  | MACHINE_CUTCONTROL => "CUTCONTROL"
  | MACHINE_MACH3 => "MACH3"
  | MACHINE_MACH4 => "MACH4"
  | MACHINE_LINUXCNC => "LINUXCNC"
  | MACHINE_UCCNC => "UCCNC"
  | MACHINE_CARBIDE => "CARBIDE"
  | MACHINE_UGS => "UGS"
  | MACHINE_MANUAL => "MANUAL"

/-- The `getJogDistanceValue` table of the sketch (float constants carried
exactly in `ℚ`). -/
def getJogDistanceValue (s : PendantState) : ℚ :=
  if s.useImperialUnits then
    if s.currentMachine = MACHINE_FIRECONTROL then
      match s.currentJogDistance with
      | JOG_FINE => 0.0005 | JOG_SMALL => 0.001 | JOG_MEDIUM => 0.01 | JOG_LARGE => 0.1
    else
      match s.currentJogDistance with
      | JOG_FINE => 0.004 | JOG_SMALL => 0.039 | JOG_MEDIUM => 0.394 | JOG_LARGE => 3.937
  else
    if s.currentMachine = MACHINE_FIRECONTROL then
      match s.currentJogDistance with
      | JOG_FINE => 0.0125 | JOG_SMALL => 0.025 | JOG_MEDIUM => 0.25 | JOG_LARGE => 2.5
    else
      match s.currentJogDistance with
      | JOG_FINE => 0.1 | JOG_SMALL => 1.0 | JOG_MEDIUM => 10.0 | JOG_LARGE => 100.0

/-- The `updatePositionTracking` fallback accumulator of the sketch. -/
def updatePositionTracking (movement : ℚ) (s : PendantState) : PendantState :=
  match s.currentAxis with
  | AXIS_X => { s with xPosition := s.xPosition + movement }
  | AXIS_Y => { s with yPosition := s.yPosition + movement }
  | AXIS_Z => { s with zPosition := s.zPosition + movement }

/-- The `sendUniversalEstopCommand` routine: sets or clears `systemLocked`
and emits the dialect-specific stop/resume sequence. -/
def sendUniversalEstopCommand (estopActive : Bool) (s : PendantState) :
    PendantState × List OutMsg :=
  if estopActive then
    ({ s with systemLocked := true },
      (match s.currentProtocol with
        | PROTOCOL_LANGMUIR => [.ln "ESTOP:ACTIVE", .ln "PAUSE"]
        | PROTOCOL_GRBL => [.rawByte 0x85, .ln "!", .ln "$X"]
        | PROTOCOL_MACH => [.ln "G80", .ln "M0"]
        | PROTOCOL_LINUXCNC => [.ln "M1", .ln "G80"]) ++ [.ln "ESTOP:PRESSED"])
  else
    ({ s with systemLocked := false },
      (match s.currentProtocol with
        | PROTOCOL_LANGMUIR => []
        | PROTOCOL_GRBL => [.ln "$X", .ln "~"]
        | PROTOCOL_MACH => []
        | PROTOCOL_LINUXCNC => []) ++ [.ln "ESTOP:RELEASED"])

/-- The `sendUniversalJogCommand` routine: blocks every motion command while
`systemLocked` or the E-stop state is not released, otherwise emits the
dialect-specific jog line.  The integer scaled movement `steps` is passed
through to the message model (see `OutMsg`); the sketch prints only
`dist` and the sign. -/
def sendUniversalJogCommand (s : PendantState) (axis : Char) (positive : Bool)
    (steps : Int) (dist : ℚ) : List OutMsg :=
  if s.systemLocked ∨ s.currentEstopState ≠ ESTOP_RELEASED then
    [.ln "ESTOP:MOTION_BLOCKED"]
  else
    match s.currentProtocol with
    | PROTOCOL_LANGMUIR =>
        [.jogLangmuir axis positive steps dist,
         .moveLangmuir axis positive steps dist s.useImperialUnits]
    | PROTOCOL_GRBL =>
        [.jogGrbl axis positive steps dist
          (if s.currentSpeed = SPEED_SLOW then 500
           else if s.currentSpeed = SPEED_FAST then 2000 else 1000)]
    | PROTOCOL_MACH =>
        [.jogMach axis positive steps dist
          (if s.currentSpeed = SPEED_SLOW then 100
           else if s.currentSpeed = SPEED_FAST then 1000 else 500)]
    | PROTOCOL_LINUXCNC =>
        [.jogLinux axis positive steps dist
          (if s.currentSpeed = SPEED_SLOW then 100
           else if s.currentSpeed = SPEED_FAST then 1000 else 500)]

/-- The legacy keyboard jog events of `handleEncoder` (Langmuir protocol
only): a press/release pair per scaled movement. -/
def legacyJogKeys (axis : AxisType) (positive : Bool) : List OutMsg :=
  match axis with
  | AXIS_Z => [.jogKey (if positive then "PGUP" else "PGDN") true,
               .jogKey (if positive then "PGUP" else "PGDN") false]
  | AXIS_Y => [.jogKey (if positive then "UP" else "DOWN") true,
               .jogKey (if positive then "UP" else "DOWN") false]
  | AXIS_X => [.jogKey (if positive then "RIGHT" else "LEFT") true,
               .jogKey (if positive then "RIGHT" else "LEFT") false]

/-- The safety-gate condition of `handleEncoder` (line
`hostArmed && (millis()-lastHostPing)<=HOST_TIMEOUT_MS && hostMotionState==MS_IDLE`). -/
def motionGate (now : Nat) (s : PendantState) : Bool :=
  s.hostArmed && decide (now - s.lastHostPing ≤ HOST_TIMEOUT_MS)
    && (s.hostMotionState = MS_IDLE)

/-- The four-condition motion-authorization predicate of the specification:
armed, fresh heartbeat, host idle, and E-stop state released. -/
def motionAuthorized (now : Nat) (s : PendantState) : Bool :=
  motionGate now s && (s.currentEstopState = ESTOP_RELEASED)

/-- The `±1000000` clamp applied to `encoderPosition` in `handleEncoder`. -/
def clampPos (x : Int) : Int :=
  if x > 1000000 then 1000000 else if x < -1000000 then -1000000 else x

/-- The `handleEncoder` routine: consume the pending ISR edge count, resolve
direction from phase B, clamp the position, derive the scaled movement with
remainder carry, apply the safety gate, and emit the jog command plus the
legacy key events. -/
def handleEncoder (now : Nat) (encB : Bool) (s : PendantState) :
    PendantState × List OutMsg :=
  let pulses := s.encAedges
  if pulses = 0 then (s, []) else
  let s := { s with encAedges := 0 }
  let dir : Int := if encB then 1 else -1
  let ep := clampPos (s.encoderPosition + dir * pulses)
  let s := { s with encoderPosition := ep }
  let rawMovement := ep - s.lastEncoderPos
  if rawMovement = 0 then (s, []) else
  let s := { s with lastEncoderPos := ep }
  let acc := s.scaledEncoderPosition + rawMovement
  let scaledMovement := acc.tdiv s.encoderScale
  if scaledMovement = 0 then ({ s with scaledEncoderPosition := acc }, []) else
  let s := { s with scaledEncoderPosition := acc.tmod s.encoderScale }
  if ¬ (motionGate now s = true) then
    ({ s with scaledEncoderPosition := 0 }, [])
  else
    let positive := decide (scaledMovement > 0)
    let jogDistance := getJogDistanceValue s
    let actual := (if positive then jogDistance else -jogDistance) * (scaledMovement.natAbs : ℚ)
    let s := updatePositionTracking actual s
    let axisChar := if s.currentAxis = AXIS_X then 'X'
                    else if s.currentAxis = AXIS_Y then 'Y' else 'Z'
    let jogOut := sendUniversalJogCommand s axisChar positive scaledMovement.natAbs |actual|
    let legacy := if s.currentProtocol = PROTOCOL_LANGMUIR
                  then legacyJogKeys s.currentAxis positive else []
    ({ s with needsAxisRedraw := true }, jogOut ++ legacy)

/-- The `getFeedRatePercent` table of the sketch. -/
def getFeedRatePercent : FeedRate → String
  | FEED_25 => "25%" | FEED_50 => "50%" | FEED_75 => "75%" | FEED_100 => "100%"

/-- Cyclic advance `(currentAxis + 1) % 3` over `AXIS_Z=0, AXIS_Y=1, AXIS_X=2`. -/
def nextAxis : AxisType → AxisType
  | AXIS_Z => AXIS_Y | AXIS_Y => AXIS_X | AXIS_X => AXIS_Z

/-- Cyclic advance `(currentJogDistance + 1) % 4`. -/
def nextJogDistance : JogDistance → JogDistance
  | JOG_FINE => JOG_SMALL | JOG_SMALL => JOG_MEDIUM
  | JOG_MEDIUM => JOG_LARGE | JOG_LARGE => JOG_FINE

/-- Cyclic advance `(currentSpeed + 1) % 3`. -/
def nextSpeed : SpeedType → SpeedType
  | SPEED_SLOW => SPEED_MEDIUM | SPEED_MEDIUM => SPEED_FAST | SPEED_FAST => SPEED_SLOW

/-- Cyclic advance `(currentFeedRate + 1) % 4`. -/
def nextFeedRate : FeedRate → FeedRate
  | FEED_25 => FEED_50 | FEED_50 => FEED_75 | FEED_75 => FEED_100 | FEED_100 => FEED_25

/-- The `KEY:<n>,1` distance shortcut of the button-1 long press
(CutControl profile, gate passing). -/
def distanceKeyNum : JogDistance → OutMsg
  | JOG_FINE => .keyNum "KEY:1,1" | JOG_SMALL => .keyNum "KEY:2,1"
  | JOG_MEDIUM => .keyNum "KEY:3,1" | JOG_LARGE => .keyNum "KEY:4,1"

/-- The `handleButton1` routine (axis / jog-distance button), including its
`static bool last` and `static unsigned long dbT` debounce locals, which
are the fields `b1Last` / `b1DbT`.  Note that `last = down` is executed
only inside the `(now - dbT) > DEBOUNCE_DELAY` block, exactly as in the
source. -/
def handleButton1 (now : Nat) (raw : Bool) (s : PendantState) :
    PendantState × List OutMsg :=
  let down := !raw
  let dbT := if down ≠ s.b1Last then now else s.b1DbT
  let s := { s with b1DbT := dbT }
  if now - dbT > DEBOUNCE_DELAY then
    if down ∧ ¬ s.button1Pressed then
      ({ s with button1Pressed := true, button1Processed := false,
                btn1PressTime := now, lastActivityTime := now, b1Last := down }, [])
    else if ¬ down ∧ s.button1Pressed then
      let s := { s with button1Pressed := false }
      let dur := now - s.btn1PressTime
      if ¬ s.button1Processed then
        if dur ≥ LONG_PRESS_THRESHOLD then
          let s := { s with currentJogDistance := nextJogDistance s.currentJogDistance }
          let keyOut :=
            if s.currentMachine = MACHINE_CUTCONTROL ∧ motionGate now s = true
            then [distanceKeyNum s.currentJogDistance] else []
          ({ s with button1Processed := true, b1Last := down },
           .distanceEcho (getJogDistanceValue s) :: keyOut)
        else
          let s := { s with currentAxis := nextAxis s.currentAxis }
          ({ s with button1Processed := true, b1Last := down }, [.axisEcho s.currentAxis])
      else ({ s with b1Last := down }, [])
    else ({ s with b1Last := down }, [])
  else (s, [])

/-- The `handleButton2` routine (speed / coordinate-view button), with its
debounce locals `b2Last` / `b2DbT`. -/
def handleButton2 (now : Nat) (raw : Bool) (s : PendantState) :
    PendantState × List OutMsg :=
  let down := !raw
  let dbT := if down ≠ s.b2Last then now else s.b2DbT
  let s := { s with b2DbT := dbT }
  if now - dbT > DEBOUNCE_DELAY then
    if down ∧ ¬ s.button2Pressed then
      ({ s with button2Pressed := true, button2Processed := false,
                btn2PressTime := now, lastActivityTime := now, b2Last := down }, [])
    else if ¬ down ∧ s.button2Pressed then
      let s := { s with button2Pressed := false }
      let dur := now - s.btn2PressTime
      if ¬ s.button2Processed then
        if dur ≥ LONG_PRESS_THRESHOLD then
          if ¬ s.viewLockedByHost then
            let s := { s with coordView := if s.coordView = VIEW_WCS then VIEW_MCS else VIEW_WCS }
            ({ s with button2Processed := true, b2Last := down, needsFullRedraw := true },
             [.coordViewEcho s.coordView])
          else ({ s with button2Processed := true, b2Last := down }, [])
        else
          if s.currentMachine = MACHINE_CUTCONTROL then
            let s := { s with currentFeedRate := nextFeedRate s.currentFeedRate }
            ({ s with button2Processed := true, b2Last := down },
             [.feedrateEcho s.currentFeedRate])
          else
            let s := { s with currentSpeed := nextSpeed s.currentSpeed }
            ({ s with button2Processed := true, b2Last := down },
             [.speedEcho s.currentSpeed])
      else ({ s with b2Last := down }, [])
    else ({ s with b2Last := down }, [])
  else (s, [])

/-- The `handleBothButtons` routine: the both-held gesture that toggles the
help overlay.  It reads the raw pin levels directly (no debounce) and marks
both `Processed` flags when it fires. -/
def handleBothButtons (now : Nat) (btn1Raw btn2Raw : Bool) (s : PendantState) :
    PendantState × List OutMsg :=
  let btn1Down := !btn1Raw
  let btn2Down := !btn2Raw
  if btn1Down ∧ btn2Down then
    if ¬ s.bothButtonsHeld then
      ({ s with bothButtonsHeld := true, bothButtonsTime := now }, [])
    else if now - s.bothButtonsTime ≥ HELP_HOLD_TIME then
      if s.currentViewMode = VIEW_NORMAL then
        ({ s with currentViewMode := VIEW_HELP,
                  button1Processed := true, button2Processed := true,
                  bothButtonsTime := now + 10000 }, [])
      else
        ({ s with currentViewMode := VIEW_NORMAL, needsFullRedraw := true,
                  button1Processed := true, button2Processed := true,
                  bothButtonsTime := now + 10000 }, [])
    else (s, [])
  else ({ s with bothButtonsHeld := false }, [])

/-- The `handleToggleSwitch` routine (power/sleep toggle, edge triggered on
the raw level). -/
def handleToggleSwitch (now : Nat) (raw : Bool) (s : PendantState) :
    PendantState × List OutMsg :=
  let current := !raw
  if current ≠ s.lastToggleState then
    let s := { s with lastToggleState := current, lastActivityTime := now }
    if current then
      if s.currentPowerState ≠ POWER_ACTIVE then
        ({ s with currentPowerState := POWER_ACTIVE, sleepCountdown := 0,
                  needsFullRedraw := false }, [.ln "POWER:ACTIVE"])
      else (s, [])
    else
      if s.currentPowerState = POWER_ACTIVE then
        ({ s with currentPowerState := POWER_COUNTDOWN, sleepCountdownStart := now,
                  sleepCountdown := 5 }, [.ln "POWER:COUNTDOWN"])
      else (s, [])
  else (s, [])

/-- The `handlePowerManagement` routine (non-`BATTERY_MODE` build): the
sleep countdown display and the transition to `POWER_SLEEP`. -/
def handlePowerManagement (now : Nat) (s : PendantState) :
    PendantState × List OutMsg :=
  if s.currentPowerState = POWER_COUNTDOWN then
    let elapsed := now - s.sleepCountdownStart
    let newCountdown : Int := 5 - (elapsed / 1000 : Nat)
    let cd := if newCountdown ≠ s.sleepCountdown ∧ newCountdown ≥ 0
              then newCountdown else s.sleepCountdown
    let s := { s with sleepCountdown := cd }
    if elapsed ≥ SLEEP_COUNTDOWN_TIME then
      ({ s with currentPowerState := POWER_SLEEP }, [.ln "POWER:SLEEP"])
    else (s, [])
  else (s, [])

/-- The `handleEstop` routine, with its debounce locals `estopLast` /
`estopDbT` (same `static` pattern as the buttons: `last = pressed` is
executed only inside the debounce-passed block).  A registered transition
sets the E-stop state, runs `sendUniversalEstopCommand`, and prints the
event line; the release path also performs the full redraw
(`doFullRedraw` clears `needsFullRedraw`). -/
def handleEstop (now : Nat) (raw : Bool) (s : PendantState) :
    PendantState × List OutMsg :=
  let pressed := !raw
  let dbT := if pressed ≠ s.estopLast then now else s.estopDbT
  let s := { s with estopDbT := dbT }
  if now - dbT > ESTOP_DEBOUNCE then
    if pressed ≠ s.estopPressed then
      let s := { s with estopPressed := pressed, estopPressTime := now,
                        lastActivityTime := now }
      if pressed then
        let r := sendUniversalEstopCommand true { s with currentEstopState := ESTOP_PRESSED }
        ({ r.1 with estopLast := pressed }, r.2 ++ [.ln "ESTOP:EMERGENCY_STOP_ACTIVATED"])
      else
        let r := sendUniversalEstopCommand false { s with currentEstopState := ESTOP_RELEASED }
        ({ r.1 with estopLast := pressed, needsFullRedraw := false },
         r.2 ++ [.ln "ESTOP:EMERGENCY_STOP_RELEASED"])
    else ({ s with estopLast := pressed }, [])
  else (s, [])

/-! The serial command processor `processSerialCommands`. -/

/-- Condition of the GRBL-style auto-detection branch
(`c.startsWith("ok") || c.startsWith("error:") || c.startsWith("ALARM:") || c.startsWith("$")`). -/
def grblDetectCond (t : Line) : Bool :=
  startsWithL (str "ok") t || startsWithL (str "error:") t ||
  startsWithL (str "ALARM:") t || startsWithL (str "$") t

/-- Condition of the Mach-series auto-detection branch. -/
def machDetectCond (t : Line) : Bool :=
  startsWithL (str "Mach3") t || startsWithL (str "Mach4") t ||
  indexOfStr t (str "Artsoft") ≥ 0

/-- Condition of the UCCNC auto-detection branch. -/
def uccncDetectCond (t : Line) : Bool :=
  startsWithL (str "UCCNC") t || indexOfStr t (str "cncdrive") ≥ 0

/-- Condition of the LinuxCNC auto-detection branch. -/
def linuxDetectCond (t : Line) : Bool :=
  startsWithL (str "LINUXCNC") t || indexOfStr t (str "emc") ≥ 0 ||
  indexOfStr t (str "axis") ≥ 0

/-- Condition of the Carbide auto-detection branch. -/
def carbideDetectCond (t : Line) : Bool :=
  indexOfStr t (str "Carbide") ≥ 0 || indexOfStr t (str "Shapeoko") ≥ 0 ||
  indexOfStr t (str "Nomad") ≥ 0

/-- The profiles the GRBL-style branch treats as still default/unset
(`currentMachine == MACHINE_FIRECONTROL || MACHINE_CUTCONTROL || MACHINE_MANUAL`). -/
def machineDefaultish (m : MachineType) : Bool :=
  m = MACHINE_FIRECONTROL || m = MACHINE_CUTCONTROL || m = MACHINE_MANUAL

/-- The auto-detection if/else-if chain at the top of
`processSerialCommands`.  Only the GRBL-style branch is guarded by the
default-profile check; the name-token branches assign unconditionally. -/
def detectStep (t : Line) (s : PendantState) : PendantState × List OutMsg :=
  if grblDetectCond t then
    if machineDefaultish s.currentMachine then
      ({ s with currentMachine := MACHINE_UGS, currentProtocol := PROTOCOL_GRBL,
                needsFullRedraw := true }, [.ln "AUTO-DETECTED:UGS/GRBL"])
    else (s, [])
  else if machDetectCond t then
    let m := if indexOfStr t (str "Mach4") ≥ 0 then MACHINE_MACH4 else MACHINE_MACH3
    ({ s with currentMachine := m, currentProtocol := PROTOCOL_MACH,
              needsFullRedraw := true }, [.autoDetected (getMachineName m)])
  else if uccncDetectCond t then
    ({ s with currentMachine := MACHINE_UCCNC, currentProtocol := PROTOCOL_MACH,
              needsFullRedraw := true }, [.ln "AUTO-DETECTED:UCCNC"])
  else if linuxDetectCond t then
    ({ s with currentMachine := MACHINE_LINUXCNC, currentProtocol := PROTOCOL_LINUXCNC,
              needsFullRedraw := true }, [.ln "AUTO-DETECTED:LINUXCNC"])
  else if carbideDetectCond t then
    ({ s with currentMachine := MACHINE_CARBIDE, currentProtocol := PROTOCOL_GRBL,
              needsFullRedraw := true }, [.ln "AUTO-DETECTED:CARBIDE"])
  else (s, [])

/-- Profile-name lookup of the `MACHINE:` branch (unknown names keep the
current profile). -/
def machineFromName (mt : Line) (cur : MachineType) : MachineType :=
  if mt = str "FIRECONTROL" then MACHINE_FIRECONTROL
  else if mt = str "CUTCONTROL" then MACHINE_CUTCONTROL
  else if mt = str "MACH3" then MACHINE_MACH3
  else if mt = str "MACH4" then MACHINE_MACH4
  else if mt = str "LINUXCNC" then MACHINE_LINUXCNC
  else if mt = str "UCCNC" then MACHINE_UCCNC
  else if mt = str "CARBIDE" then MACHINE_CARBIDE
  else if mt = str "UGS" then MACHINE_UGS
  else if mt = str "OPENBUILDS" then MACHINE_UGS
  else if mt = str "CNCJS" then MACHINE_UGS
  else if mt = str "MANUAL" then MACHINE_MANUAL
  else cur

/-- The `getOffsetPtr` selector: whether the label names one of the six
work-offset slots. -/
def hasOffsetSlot (g : Line) : Bool :=
  g = str "G54" || g = str "G55" || g = str "G56" ||
  g = str "G57" || g = str "G58" || g = str "G59"

/-- Store into the work-offset slot selected by `getOffsetPtr`. -/
def setOffsetSlot (g : Line) (v : XYZ) (s : PendantState) : PendantState :=
  if g = str "G54" then { s with offG54 := v }
  else if g = str "G55" then { s with offG55 := v }
  else if g = str "G56" then { s with offG56 := v }
  else if g = str "G57" then { s with offG57 := v }
  else if g = str "G58" then { s with offG58 := v }
  else if g = str "G59" then { s with offG59 := v }
  else s

/-- Freshness of the host work-coordinate snapshot (`hostWCSFresh`). -/
def hostWCSFresh (now : Nat) (s : PendantState) : Bool :=
  now - s.tHostWCS ≤ HOST_POS_STALE_MS

/-- Freshness of the host machine-coordinate snapshot (`hostMCSFresh`). -/
def hostMCSFresh (now : Nat) (s : PendantState) : Bool :=
  now - s.tHostMCS ≤ HOST_POS_STALE_MS

/-- Parse the `X,<f>,Y,<f>,Z,<f>` tail shared by the `POS:WCS,` /
`POS:MCS,` / `OFFSET:` branches: the space-stripped tail is scanned for the
`X,` / `,Y,` / `,Z,` markers, and only when all three are found are the
three fields converted with `toFloat`. -/
def parseXYZTail (rest : Line) : Option XYZ :=
  let xI := indexOfStr rest (str "X,")
  let yI := indexOfStr rest (str ",Y,")
  let zI := indexOfStr rest (str ",Z,")
  if xI ≥ 0 ∧ yI > 0 ∧ zI > 0 then
    some ⟨toFloatL (subRange rest (xI.toNat + 2) yI.toNat),
          toFloatL (subRange rest (yI.toNat + 3) zI.toNat),
          toFloatL (subFrom rest (zI.toNat + 3))⟩
  else none

/-- Tail of the command chain of `processSerialCommands` (branches from
`POS:GET` on), split out so each chunk of the chain stays tractable for the
branch analyses below. -/
def commandStepC (now : Nat) (t : Line) (s : PendantState) : PendantState × List OutMsg :=
  if t = str "POS:GET" then
    (s, [.posLine 'X' s.xPosition, .posLine 'Y' s.yPosition, .posLine 'Z' s.zPosition])
  else if startsWithL (str "POS:SET,") t then
    let a := indexOfCh t ',' 8
    let b := indexOfCh t ',' (a + 1).toNat
    if a > 0 ∧ b > 0 then
      let ax := charAtL t (a.toNat + 1)
      let val := toFloatL (subFrom t (b.toNat + 1))
      let s := if ax = 'X' then { s with xPosition := val }
               else if ax = 'Y' then { s with yPosition := val }
               else if ax = 'Z' then { s with zPosition := val }
               else s
      ({ s with needsAxisRedraw := true }, [])
    else (s, [])
  else if startsWithL (str "ENCODER:SCALE,") t then
    let sc := toIntL (subFrom t 14)
    if sc ≥ 1 ∧ sc ≤ 10 then
      ({ s with encoderScale := sc, scaledEncoderPosition := 0 }, [.scaleSet sc])
    else (s, [])
  else if t = str "MACHINE:ZERO" then
    ({ s with xPosition := 0, yPosition := 0, zPosition := 0,
              encoderPosition := 0, scaledEncoderPosition := 0, lastEncoderPos := 0,
              needsAxisRedraw := true }, [])
  else if t = str "ENCODER:GET" then
    (s, [.encGetScale s.encoderScale, .encGetPos s.encoderPosition,
         .encGetScaled s.scaledEncoderPosition,
         .wcsFreshLine (hostWCSFresh now s), .mcsFreshLine (hostMCSFresh now s)])
  else if startsWithL (str "LCD:BRIGHTNESS,") t then
    let b := toIntL (subFrom t 15)
    let b := if b < 0 then 0 else if b > 255 then 255 else b
    (s, [.brightnessEcho b])
  else (s, [])

/-- Middle of the command chain of `processSerialCommands` (branches from
`MOTION:STATE,` to `POS:RESET`; the final `else` continues with
`commandStepC`). -/
def commandStepB (now : Nat) (t : Line) (s : PendantState) : PendantState × List OutMsg :=
  if startsWithL (str "MOTION:STATE,") t then
    let sm := subFrom t 13
    let nm := if sm = str "RUN" then MS_RUN
              else if sm = str "HOLD" then MS_HOLD else MS_IDLE
    if nm ≠ s.hostMotionState then
      ({ s with hostMotionState := nm }, [.motionEcho sm])
    else (s, [])
  else if startsWithL (str "COORD:ACTIVE,") t then
    let aw := trimL (subFrom t 13)
    ({ s with activeWCS := if aw.length = 0 then str "G54" else aw,
              needsStatusRedraw := true }, [])
  else if startsWithL (str "COORD:VIEW,") t then
    let v := subFrom t 11
    let s := if v = str "WCS" then { s with coordView := VIEW_WCS, viewLockedByHost := true }
             else if v = str "MCS" then { s with coordView := VIEW_MCS, viewLockedByHost := true }
             else s
    ({ s with needsAxisRedraw := true, needsStatusRedraw := true }, [])
  else if startsWithL (str "OFFSET:") t then
    let gEnd := indexOfCh t ',' 7
    if gEnd > 0 then
      let g := subRange t 7 gEnd.toNat
      if hasOffsetSlot g then
        match parseXYZTail (dropSpaces (subFrom t (gEnd.toNat + 1))) with
        | some v => (setOffsetSlot g v s, [])
        | none => (s, [])
      else (s, [])
    else (s, [])
  else if startsWithL (str "POS:WCS,") t then
    match parseXYZTail (dropSpaces (subFrom t 8)) with
    | some v => ({ s with hostWCS := v, tHostWCS := now, needsAxisRedraw := true }, [])
    | none => (s, [])
  else if startsWithL (str "POS:MCS,") t then
    match parseXYZTail (dropSpaces (subFrom t 8)) with
    | some v => ({ s with hostMCS := v, tHostMCS := now, needsAxisRedraw := true }, [])
    | none => (s, [])
  else if startsWithL (str "POS:RESET") t then
    ({ s with xPosition := 0, yPosition := 0, zPosition := 0, needsAxisRedraw := true }, [])
  else commandStepC now t s

/-- Second chunk of the command chain of `processSerialCommands` (branches
from `SOFTWARE:` to `HOST:PING`; the final `else` continues with
`commandStepB`). -/
def commandStepA2 (now : Nat) (t : Line) (s : PendantState) : PendantState × List OutMsg :=
  if startsWithL (str "SOFTWARE:") t then
    let st := subFrom t 9 = str "CONNECTED"
    if st ≠ s.softwareConnected then
      ({ s with softwareConnected := st, needsStatusRedraw := true }, [.softwareEcho st])
    else (s, [])
  else if t = str "HOST:HELLO" then
    (s, [.fwVersion, .ln "PENDANT:HELLO"])
  else if t = str "ARM:ENABLE" then
    ({ s with hostArmed := true, lastHostPing := now }, [.ln "ARM:ENABLED"])
  else if t = str "ARM:DISABLE" then
    ({ s with hostArmed := false }, [.ln "ARM:DISABLED"])
  else if t = str "HOST:PING" then
    ({ s with lastHostPing := now }, [.ln "HOST:PONG"])
  else commandStepB now t s

/-- The command if/else-if chain of `processSerialCommands`, applied to one
trimmed nonempty line (after the auto-detection chain); the chain continues
with `commandStepA2`, `commandStepB` and `commandStepC`. -/
def commandStep (now : Nat) (t : Line) (s : PendantState) : PendantState × List OutMsg :=
  if startsWithL (str "LCD:SOLID,") t then
    let a := indexOfCh t ',' 10
    let b := indexOfCh t ',' (a + 1).toNat
    if a > 0 ∧ b > 0 then
      ({ s with bgR := ((toIntL (subRange t 10 a.toNat)) % 256).toNat,
                bgG := ((toIntL (subRange t (a.toNat + 1) b.toNat)) % 256).toNat,
                bgB := ((toIntL (subFrom t (b.toNat + 1))) % 256).toNat,
                useRGBWheel := false, needsFullRedraw := true }, [])
    else (s, [])
  else if startsWithL (str "LCD:WHEEL,") t then
    ({ s with rgbHue := toFloatL (subFrom t 10), useRGBWheel := true,
              needsFullRedraw := true }, [])
  else if startsWithL (str "MACHINE:") t then
    let nm := machineFromName (subFrom t 8) s.currentMachine
    if nm ≠ s.currentMachine then
      ({ s with currentMachine := nm, needsFullRedraw := true },
       [.machineEcho (getMachineName nm)])
    else (s, [])
  else if startsWithL (str "UNITS:") t then
    let u := subFrom t 6
    let ni := u = str "INCHES" || u = str "IN"
    if ni ≠ s.useImperialUnits then
      ({ s with useImperialUnits := ni, needsAxisRedraw := true }, [.unitsEcho ni])
    else (s, [])
  else commandStepA2 now t s

/-- Processing of one raw serial line: trim, skip empty lines, then the
auto-detection chain followed by the command chain. -/
def processLine (now : Nat) (s : PendantState) (rawLine : Line) :
    PendantState × List OutMsg :=
  let c := trimL rawLine
  if c.length = 0 then (s, [])
  else
    let r1 := detectStep c s
    let r2 := commandStep now c r1.1
    (r2.1, r1.2 ++ r2.2)

/-- The `processSerialCommands` loop over every buffered line. -/
def processSerialCommands (now : Nat) (lines : List Line) (s : PendantState) :
    PendantState × List OutMsg :=
  lines.foldl
    (fun (acc : PendantState × List OutMsg) l =>
      let r := processLine now acc.1 l
      (r.1, acc.2 ++ r.2))
    (s, [])

/-! The main loop. -/

/-- Inputs of one `loop()` iteration: the `millis()` value, the raw pin
levels (buttons, toggle and E-stop are active-low, so `true` is the pulled-
up idle level), the phase-B level sampled by `handleEncoder`, the number of
ISR edges accumulated since the previous iteration, and the buffered serial
lines. -/
structure LoopIn where
  now : Nat
  btn1Raw : Bool := true
  btn2Raw : Bool := true
  toggleRaw : Bool := false
  estopRaw : Bool := true
  encB : Bool := true
  pulses : Nat := 0
  serial : List Line := []
  deriving Repr

/-- Head of one `loop()` iteration: accumulate the new ISR edges, then run
the input handlers in source order — E-stop first, then the both-held
gesture, the two buttons, the toggle switch and power management. -/
def loopHandlers (i : LoopIn) (s : PendantState) : PendantState × List OutMsg :=
  let s0 := { s with encAedges := s.encAedges + (i.pulses : Int) }
  let r1 := handleEstop i.now i.estopRaw s0
  let r2 := handleBothButtons i.now i.btn1Raw i.btn2Raw r1.1
  let r3 := handleButton1 i.now i.btn1Raw r2.1
  let r4 := handleButton2 i.now i.btn2Raw r3.1
  let r5 := handleToggleSwitch i.now i.toggleRaw r4.1
  let r6 := handlePowerManagement i.now r5.1
  (r6.1, r1.2 ++ r2.2 ++ r3.2 ++ r4.2 ++ r5.2 ++ r6.2)

/-- The redraw bookkeeping at the tail of `loop()` (clearing the dirty
flags that the rate-limited drawing consumed this iteration). -/
def loopUIFlags (now : Nat) (s8 : PendantState) : PendantState :=
  let sA := if s8.needsFullRedraw then
              { s8 with needsFullRedraw := false, needsAxisRedraw := false,
                        needsStatusRedraw := false }
            else s8
  let sB := if sA.needsAxisRedraw ∧ now - sA.lastPosRedraw > 100 then
              { sA with lastPosRedraw := now, needsAxisRedraw := false }
            else sA
  if sB.needsStatusRedraw ∨ now - sB.loopLastUI > 1000 then
    { sB with loopLastUI := now, needsStatusRedraw := false }
  else sB

/-- One iteration of `loop()`, assembled from `loopHandlers` (E-stop first,
then buttons, toggle and power), the gated encoder/serial section, and the
redraw bookkeeping. -/
def loopStep (i : LoopIn) (s : PendantState) : PendantState × List OutMsg :=
  let rh := loopHandlers i s
  let s6 := rh.1
  if s6.currentPowerState = POWER_ACTIVE ∧ s6.currentEstopState = ESTOP_RELEASED then
    let r7 := handleEncoder i.now i.encB s6
    let r8 := processSerialCommands i.now i.serial r7.1
    let s8 := r8.1
    let out := rh.2 ++ r7.2 ++ r8.2
    if s8.currentViewMode = VIEW_HELP then (s8, out)
    else (loopUIFlags i.now s8, out)
  else (s6, rh.2)

/-- Run a sequence of loop iterations, collecting every emission. -/
def loopRun (s : PendantState) : List LoopIn → PendantState × List OutMsg
  | [] => (s, [])
  | i :: is =>
    let r := loopStep i s
    let rest := loopRun r.1 is
    (rest.1, r.2 ++ rest.2)

/-- States reachable from power-on by some sequence of loop iterations with
arbitrary inputs. -/
inductive Reachable : PendantState → Prop
  | init : Reachable initialState
  | step (s : PendantState) (i : LoopIn) :
      Reachable s → Reachable (loopStep i s).1

/-- The encoder-jog path of a loop iteration: `handleEncoder` guarded by
the loop's power/E-stop condition. -/
def encoderJogPath (now : Nat) (encB : Bool) (s : PendantState) :
    PendantState × List OutMsg :=
  if s.currentPowerState = POWER_ACTIVE ∧ s.currentEstopState = ESTOP_RELEASED then
    handleEncoder now encB s
  else (s, [])

/-- Whether the encoder-jog path of this iteration reaches the point where
a nonzero scaled movement is ready to be emitted: the handler runs (power
active, E-stop state released), pending pulses exist, the clamped position
moved, and the scaled quotient is nonzero. -/
def encReady (encB : Bool) (s : PendantState) : Bool :=
  s.currentPowerState = POWER_ACTIVE ∧ s.currentEstopState = ESTOP_RELEASED ∧
  s.encAedges ≠ 0 ∧
  (let dir : Int := if encB then 1 else -1
   let ep := clampPos (s.encoderPosition + dir * s.encAedges)
   let rawMovement := ep - s.lastEncoderPos
   rawMovement ≠ 0 ∧
   (s.scaledEncoderPosition + rawMovement).tdiv s.encoderScale ≠ 0)

/-! The two-stage remainder-carry scaling of `handleEncoder` in isolation
(lines `scaledEncoderPosition += rawMovement; scaledMovement =
scaledEncoderPosition / encoderScale; if(scaledMovement==0) return;
scaledEncoderPosition = scaledEncoderPosition % encoderScale;`), with C
truncated division/remainder embedded as `Int.tdiv` / `Int.tmod`. -/

/-- One scaling step: given the carried remainder and a new raw movement,
produce the emitted scaled movement and the new remainder. -/
def scaleStep (scale rem raw : Int) : Int × Int :=
  let acc := rem + raw
  let q := acc.tdiv scale
  if q = 0 then (0, acc) else (q, acc.tmod scale)

/-- Iterate `scaleStep` over a batch sequence, collecting the emitted
scaled movements. -/
def scaleRun (scale rem : Int) : List Int → List Int × Int
  | [] => ([], rem)
  | raw :: raws =>
    let r := scaleStep scale rem raw
    let rest := scaleRun scale r.2 raws
    (r.1 :: rest.1, rest.2)

/-! Recognizer predicates (the exact disjunction of the branch conditions
of the two if/else-if chains of `processSerialCommands`), and concrete
scenario data used by the claim theorems. -/

/-- Whether a trimmed line matches some auto-detection branch condition. -/
def detectsLine (t : Line) : Bool :=
  grblDetectCond t || machDetectCond t || uccncDetectCond t ||
  linuxDetectCond t || carbideDetectCond t

/-- Whether a trimmed line matches some command branch condition of
`processSerialCommands` (in source order). -/
def recognizedLine (t : Line) : Bool :=
  startsWithL (str "LCD:SOLID,") t ||
  startsWithL (str "LCD:WHEEL,") t ||
  startsWithL (str "MACHINE:") t ||
  startsWithL (str "UNITS:") t ||
  startsWithL (str "SOFTWARE:") t ||
  decide (t = str "HOST:HELLO") ||
  decide (t = str "ARM:ENABLE") ||
  decide (t = str "ARM:DISABLE") ||
  decide (t = str "HOST:PING") ||
  startsWithL (str "MOTION:STATE,") t ||
  startsWithL (str "COORD:ACTIVE,") t ||
  startsWithL (str "COORD:VIEW,") t ||
  startsWithL (str "OFFSET:") t ||
  startsWithL (str "POS:WCS,") t ||
  startsWithL (str "POS:MCS,") t ||
  startsWithL (str "POS:RESET") t ||
  decide (t = str "POS:GET") ||
  startsWithL (str "POS:SET,") t ||
  startsWithL (str "ENCODER:SCALE,") t ||
  decide (t = str "MACHINE:ZERO") ||
  decide (t = str "ENCODER:GET") ||
  startsWithL (str "LCD:BRIGHTNESS,") t

/-- The command prefixes tested with `startsWith` in the command chain. -/
def cmdPrefixes : List Line :=
  [str "LCD:SOLID,", str "LCD:WHEEL,", str "MACHINE:", str "UNITS:",
   str "SOFTWARE:", str "MOTION:STATE,", str "COORD:ACTIVE,", str "COORD:VIEW,",
   str "OFFSET:", str "POS:WCS,", str "POS:MCS,", str "POS:RESET",
   str "POS:SET,", str "ENCODER:SCALE,", str "LCD:BRIGHTNESS,"]

/-- The full lines tested with equality in the command chain. -/
def cmdEqLines : List Line :=
  [str "HOST:HELLO", str "ARM:ENABLE", str "ARM:DISABLE", str "HOST:PING",
   str "POS:GET", str "MACHINE:ZERO", str "ENCODER:GET"]

/-- Scenario for C1: the E-stop input is asserted (its debounced-in level
`pressed = !raw` reads `true`) continuously from `t = 100 ms`; the host
sends `ARM:ENABLE` at the first iteration; five encoder edges arrive at
`t = 500 ms` with the heartbeat fresh and the host idle. -/
def c1Trace : List LoopIn :=
  [{ now := 100, estopRaw := false, serial := [str "ARM:ENABLE"] },
   { now := 250, estopRaw := false },
   { now := 500, estopRaw := false, pulses := 5 }]

/-- Scenario for C4: three raw encoder edges consumed while the host is
not armed (the gate fails at the ready point). -/
def c4State : PendantState := { initialState with encAedges := 3 }

/-- State after the host explicitly selects the UGS profile. -/
def c6S1 : PendantState := (processLine 0 initialState (str "MACHINE:UGS")).1

/-- Scenario for C7: enter help mode by the both-held gesture (fires at
`t = 1800 ms`), press and release button 1 inside help mode
(`t = 2000..2300 ms`), exit help by a second gesture (fires at
`t = 13600 ms`), then press and release button 1 again
(`t = 13800..14100 ms`). -/
def c7Trace : List LoopIn :=
  [{ now := 100 },
   { now := 200, btn1Raw := false, btn2Raw := false },
   { now := 300, btn1Raw := false, btn2Raw := false },
   { now := 1800, btn1Raw := false, btn2Raw := false },
   { now := 1900 },
   { now := 2000, btn1Raw := false },
   { now := 2100, btn1Raw := false },
   { now := 2300 },
   { now := 2400 },
   { now := 12000, btn1Raw := false, btn2Raw := false },
   { now := 13600, btn1Raw := false, btn2Raw := false },
   { now := 13700 },
   { now := 13800, btn1Raw := false },
   { now := 13900, btn1Raw := false },
   { now := 14100 },
   { now := 14200 }]

/-- State after the host sets the background to RGB `(7, 8, 9)`. -/
def c8S1 : PendantState := (processLine 0 initialState (str "LCD:SOLID,7,8,9")).1

/-- Scenario for C9: a clean (bounce-free) press of button 1, held from
`t = 200 ms` to `t = 2400 ms` (2200 ms, far above the 1000 ms long-press
threshold) and released, with stable samples on both sides. -/
def c9Trace : List LoopIn :=
  [{ now := 100 },
   { now := 200, btn1Raw := false },
   { now := 300, btn1Raw := false },
   { now := 1500, btn1Raw := false },
   { now := 2400, btn1Raw := false },
   { now := 2500 },
   { now := 2600 },
   { now := 2700 }]

/-- The encoder-scaling bounds: a positive scale divisor and a remainder
accumulator strictly smaller than it in absolute value. -/
def ScaleOk (s : PendantState) : Prop :=
  1 ≤ s.encoderScale ∧ |s.scaledEncoderPosition| < s.encoderScale

/-- The safety/lock link and the encoder-scaling bounds maintained by every
loop iteration (the induction invariant behind C2 and C5). -/
def CoreInv (s : PendantState) : Prop :=
  (s.systemLocked = true ↔ s.currentEstopState ≠ ESTOP_RELEASED) ∧ ScaleOk s

/-! Helper lemmas: C truncated division/remainder bounds, and string
machinery for the branch analysis of `processSerialCommands`. -/

theorem abs_tmod_lt (a b : Int) (hb : 0 < b) : |a.tmod b| < b := by
  rcases le_or_lt 0 a with h | h
  · rw [abs_of_nonneg (Int.tmod_nonneg b h)]
    exact Int.tmod_lt_of_pos a hb
  · have hneg : a.tmod b = -((-a).tmod b) := by
      rw [Int.tmod_def, Int.tmod_def, Int.neg_tdiv]; ring
    rw [hneg, abs_neg, abs_of_nonneg (Int.tmod_nonneg b (by linarith))]
    exact Int.tmod_lt_of_pos (-a) hb

theorem tdiv_zero_abs_lt (a b : Int) (hb : 0 < b) (h : a.tdiv b = 0) : |a| < b := by
  have hd := Int.tmod_add_tdiv a b
  rw [h, mul_zero, add_zero] at hd
  rw [← hd]
  exact abs_tmod_lt a b hb

theorem startsWithL_of_ne (p q ext : Line) (h1 : ¬ p <+: q) (h2 : ¬ q <+: p) :
    startsWithL p (q ++ ext) = false := by
  rw [startsWithL, Bool.eq_false_iff]
  intro hc
  rw [List.isPrefixOf_iff_prefix] at hc
  rcases List.prefix_or_prefix_of_prefix hc (List.prefix_append q ext) with h | h
  · exact h1 h
  · exact h2 h

theorem append_ne (q ext r : Line) (h : ¬ q <+: r) : q ++ ext ≠ r := by
  intro he
  exact h (he ▸ List.prefix_append q ext)

theorem startsWithL_append_self (q ext : Line) : startsWithL q (q ++ ext) = true := by
  rw [startsWithL, List.isPrefixOf_iff_prefix]
  exact List.prefix_append q ext

theorem findSub_none (t p : Line) (c : Char) (hc : c ∈ p) (hnt : c ∉ t) :
    findSub t p = none := by
  induction t with
  | nil =>
    cases p with
    | nil => exact absurd hc (List.not_mem_nil c)
    | cons a as => rfl
  | cons a rest ih =>
    cases p with
    | nil => exact absurd hc (List.not_mem_nil c)
    | cons ph pt =>
      have hpre : (ph :: pt).isPrefixOf (a :: rest) = false := by
        rw [Bool.eq_false_iff]
        intro hp
        exact hnt ((List.isPrefixOf_iff_prefix.mp hp).subset hc)
      have hrest : findSub rest (ph :: pt) = none :=
        ih (fun hm => hnt (List.mem_cons_of_mem a hm))
      have hstep : findSub (a :: rest) (ph :: pt)
          = if (ph :: pt).isPrefixOf (a :: rest) then some 0
            else (findSub rest (ph :: pt)).map (· + 1) := rfl
      rw [hstep]
      simp [hpre, hrest]

theorem indexOfStr_neg (t p : Line) (c : Char) (hc : c ∈ p) (hnt : c ∉ t) :
    indexOfStr t p = -1 := by
  rw [indexOfStr, findSub_none t p c hc hnt]

theorem dropWhile_eq_self_of_all (p : Char → Bool) (t : Line)
    (h : ∀ c ∈ t, p c = false) : t.dropWhile p = t := by
  cases t with
  | nil => rfl
  | cons a as =>
    rw [List.dropWhile_cons, h a (List.mem_cons_self a as)]
    rfl

theorem trimL_eq_self (t : Line) (h : ∀ c ∈ t, isWS c = false) : trimL t = t := by
  rw [trimL, dropWhile_eq_self_of_all isWS t h,
      dropWhile_eq_self_of_all isWS t.reverse (fun c hc => h c (List.mem_reverse.mp hc)),
      List.reverse_reverse]

theorem digit_not_isWS (c : Char) (h : c.isDigit = true) : isWS c = false := by
  rcases hws : isWS c with _ | _
  · rfl
  · exfalso
    unfold isWS at hws
    simp only [Bool.or_eq_true, beq_iff_eq] at hws
    rcases hws with ((h1 | h1) | h1) | h1 <;> subst h1 <;> exact absurd h (by decide)

/-! Preservation of the core invariant fields by each handler. -/

theorem handleButton1_core (now : Nat) (raw : Bool) (s : PendantState) :
    (handleButton1 now raw s).1.systemLocked = s.systemLocked ∧
    (handleButton1 now raw s).1.currentEstopState = s.currentEstopState ∧
    (handleButton1 now raw s).1.encoderScale = s.encoderScale ∧
    (handleButton1 now raw s).1.scaledEncoderPosition = s.scaledEncoderPosition := by
  unfold handleButton1
  dsimp only
  repeat' split
  all_goals exact ⟨rfl, rfl, rfl, rfl⟩

theorem handleButton2_core (now : Nat) (raw : Bool) (s : PendantState) :
    (handleButton2 now raw s).1.systemLocked = s.systemLocked ∧
    (handleButton2 now raw s).1.currentEstopState = s.currentEstopState ∧
    (handleButton2 now raw s).1.encoderScale = s.encoderScale ∧
    (handleButton2 now raw s).1.scaledEncoderPosition = s.scaledEncoderPosition := by
  unfold handleButton2
  dsimp only
  repeat' split
  all_goals exact ⟨rfl, rfl, rfl, rfl⟩

theorem handleBothButtons_core (now : Nat) (r1 r2 : Bool) (s : PendantState) :
    (handleBothButtons now r1 r2 s).1.systemLocked = s.systemLocked ∧
    (handleBothButtons now r1 r2 s).1.currentEstopState = s.currentEstopState ∧
    (handleBothButtons now r1 r2 s).1.encoderScale = s.encoderScale ∧
    (handleBothButtons now r1 r2 s).1.scaledEncoderPosition = s.scaledEncoderPosition := by
  unfold handleBothButtons
  dsimp only
  repeat' split
  all_goals exact ⟨rfl, rfl, rfl, rfl⟩

theorem handleToggleSwitch_core (now : Nat) (raw : Bool) (s : PendantState) :
    (handleToggleSwitch now raw s).1.systemLocked = s.systemLocked ∧
    (handleToggleSwitch now raw s).1.currentEstopState = s.currentEstopState ∧
    (handleToggleSwitch now raw s).1.encoderScale = s.encoderScale ∧
    (handleToggleSwitch now raw s).1.scaledEncoderPosition = s.scaledEncoderPosition := by
  unfold handleToggleSwitch
  dsimp only
  repeat' split
  all_goals exact ⟨rfl, rfl, rfl, rfl⟩

theorem handlePowerManagement_core (now : Nat) (s : PendantState) :
    (handlePowerManagement now s).1.systemLocked = s.systemLocked ∧
    (handlePowerManagement now s).1.currentEstopState = s.currentEstopState ∧
    (handlePowerManagement now s).1.encoderScale = s.encoderScale ∧
    (handlePowerManagement now s).1.scaledEncoderPosition = s.scaledEncoderPosition := by
  unfold handlePowerManagement
  dsimp only
  repeat' split
  all_goals exact ⟨rfl, rfl, rfl, rfl⟩

theorem handleEstop_core (now : Nat) (raw : Bool) (s : PendantState)
    (h : s.systemLocked = true ↔ s.currentEstopState ≠ ESTOP_RELEASED) :
    ((handleEstop now raw s).1.systemLocked = true ↔
      (handleEstop now raw s).1.currentEstopState ≠ ESTOP_RELEASED) ∧
    (handleEstop now raw s).1.encoderScale = s.encoderScale ∧
    (handleEstop now raw s).1.scaledEncoderPosition = s.scaledEncoderPosition := by
  unfold handleEstop sendUniversalEstopCommand
  dsimp only
  repeat' split
  all_goals first
    | exact ⟨h, rfl, rfl⟩
    | (refine ⟨?_, rfl, rfl⟩; simp_all)

theorem uPT_systemLocked (m : ℚ) (s : PendantState) :
    (updatePositionTracking m s).systemLocked = s.systemLocked := by
  unfold updatePositionTracking; split <;> rfl

theorem uPT_currentEstopState (m : ℚ) (s : PendantState) :
    (updatePositionTracking m s).currentEstopState = s.currentEstopState := by
  unfold updatePositionTracking; split <;> rfl

theorem uPT_encoderScale (m : ℚ) (s : PendantState) :
    (updatePositionTracking m s).encoderScale = s.encoderScale := by
  unfold updatePositionTracking; split <;> rfl

theorem uPT_scaledEncoderPosition (m : ℚ) (s : PendantState) :
    (updatePositionTracking m s).scaledEncoderPosition = s.scaledEncoderPosition := by
  unfold updatePositionTracking; split <;> rfl

set_option maxHeartbeats 1600000 in
theorem handleEncoder_core (now : Nat) (encB : Bool) (s : PendantState)
    (h1 : 1 ≤ s.encoderScale) (h2 : |s.scaledEncoderPosition| < s.encoderScale) :
    (handleEncoder now encB s).1.systemLocked = s.systemLocked ∧
    (handleEncoder now encB s).1.currentEstopState = s.currentEstopState ∧
    (handleEncoder now encB s).1.encoderScale = s.encoderScale ∧
    |(handleEncoder now encB s).1.scaledEncoderPosition| <
      (handleEncoder now encB s).1.encoderScale := by
  have hpos : (0 : Int) < s.encoderScale := by linarith
  unfold handleEncoder
  dsimp only
  repeat' split
  all_goals try simp only [uPT_systemLocked, uPT_currentEstopState, uPT_encoderScale,
    uPT_scaledEncoderPosition]
  all_goals refine ⟨?_, ?_, ?_, ?_⟩
  all_goals first
    | trivial
    | exact uPT_systemLocked _ _
    | exact uPT_currentEstopState _ _
    | exact uPT_encoderScale _ _
    | exact h2
    | exact abs_tmod_lt _ _ hpos
    | (rw [abs_zero]; exact hpos)
    | (apply tdiv_zero_abs_lt _ _ hpos; assumption)
    | (rw [uPT_scaledEncoderPosition, uPT_encoderScale]; exact abs_tmod_lt _ _ hpos)

theorem detectStep_core (t : Line) (s : PendantState) :
    (detectStep t s).1.systemLocked = s.systemLocked ∧
    (detectStep t s).1.currentEstopState = s.currentEstopState ∧
    (detectStep t s).1.encoderScale = s.encoderScale ∧
    (detectStep t s).1.scaledEncoderPosition = s.scaledEncoderPosition := by
  unfold detectStep
  dsimp only
  repeat' split
  all_goals exact ⟨rfl, rfl, rfl, rfl⟩

theorem setOffsetSlot_systemLocked (g : Line) (v : XYZ) (s : PendantState) :
    (setOffsetSlot g v s).systemLocked = s.systemLocked := by
  unfold setOffsetSlot
  repeat' split
  all_goals rfl

theorem setOffsetSlot_estopState (g : Line) (v : XYZ) (s : PendantState) :
    (setOffsetSlot g v s).currentEstopState = s.currentEstopState := by
  unfold setOffsetSlot
  repeat' split
  all_goals rfl

theorem setOffsetSlot_scaleOk (g : Line) (v : XYZ) (s : PendantState)
    (h : ScaleOk s) : ScaleOk (setOffsetSlot g v s) := by
  unfold setOffsetSlot
  repeat' split
  all_goals exact h

set_option maxHeartbeats 1600000 in
theorem commandStepC_systemLocked (now : Nat) (t : Line) (s : PendantState) :
    (commandStepC now t s).1.systemLocked = s.systemLocked := by
  unfold commandStepC
  dsimp only
  repeat' split
  all_goals rfl

set_option maxHeartbeats 1600000 in
theorem commandStepC_estopState (now : Nat) (t : Line) (s : PendantState) :
    (commandStepC now t s).1.currentEstopState = s.currentEstopState := by
  unfold commandStepC
  dsimp only
  repeat' split
  all_goals rfl

set_option maxHeartbeats 1600000 in
theorem commandStepC_scaleOk (now : Nat) (t : Line) (s : PendantState)
    (h : ScaleOk s) : ScaleOk (commandStepC now t s).1 := by
  obtain ⟨h1, h2⟩ := h
  unfold commandStepC
  dsimp only
  repeat' split
  all_goals first
    | exact ⟨h1, h2⟩
    | exact ⟨by dsimp only; omega, by dsimp only; rw [abs_zero]; omega⟩

set_option maxHeartbeats 1600000 in
theorem commandStepB_systemLocked (now : Nat) (t : Line) (s : PendantState) :
    (commandStepB now t s).1.systemLocked = s.systemLocked := by
  unfold commandStepB
  dsimp only
  repeat' split
  all_goals first
    | rfl
    | exact setOffsetSlot_systemLocked _ _ _
    | exact commandStepC_systemLocked now t s

set_option maxHeartbeats 1600000 in
theorem commandStepB_estopState (now : Nat) (t : Line) (s : PendantState) :
    (commandStepB now t s).1.currentEstopState = s.currentEstopState := by
  unfold commandStepB
  dsimp only
  repeat' split
  all_goals first
    | rfl
    | exact setOffsetSlot_estopState _ _ _
    | exact commandStepC_estopState now t s

set_option maxHeartbeats 1600000 in
theorem commandStepB_scaleOk (now : Nat) (t : Line) (s : PendantState)
    (h : ScaleOk s) : ScaleOk (commandStepB now t s).1 := by
  obtain ⟨h1, h2⟩ := h
  unfold commandStepB
  dsimp only
  repeat' split
  all_goals first
    | exact ⟨h1, h2⟩
    | exact setOffsetSlot_scaleOk _ _ _ ⟨h1, h2⟩
    | exact commandStepC_scaleOk now t s ⟨h1, h2⟩

set_option maxHeartbeats 1600000 in
theorem commandStepA2_systemLocked (now : Nat) (t : Line) (s : PendantState) :
    (commandStepA2 now t s).1.systemLocked = s.systemLocked := by
  unfold commandStepA2
  dsimp only
  repeat' split
  all_goals first
    | rfl
    | exact commandStepB_systemLocked now t s

set_option maxHeartbeats 1600000 in
theorem commandStepA2_estopState (now : Nat) (t : Line) (s : PendantState) :
    (commandStepA2 now t s).1.currentEstopState = s.currentEstopState := by
  unfold commandStepA2
  dsimp only
  repeat' split
  all_goals first
    | rfl
    | exact commandStepB_estopState now t s

set_option maxHeartbeats 1600000 in
theorem commandStepA2_scaleOk (now : Nat) (t : Line) (s : PendantState)
    (h : ScaleOk s) : ScaleOk (commandStepA2 now t s).1 := by
  obtain ⟨h1, h2⟩ := h
  unfold commandStepA2
  dsimp only
  repeat' split
  all_goals first
    | exact ⟨h1, h2⟩
    | exact commandStepB_scaleOk now t s ⟨h1, h2⟩

set_option maxHeartbeats 1600000 in
theorem commandStep_systemLocked (now : Nat) (t : Line) (s : PendantState) :
    (commandStep now t s).1.systemLocked = s.systemLocked := by
  unfold commandStep
  dsimp only
  repeat' split
  all_goals first
    | rfl
    | exact commandStepA2_systemLocked now t s

set_option maxHeartbeats 1600000 in
theorem commandStep_estopState (now : Nat) (t : Line) (s : PendantState) :
    (commandStep now t s).1.currentEstopState = s.currentEstopState := by
  unfold commandStep
  dsimp only
  repeat' split
  all_goals first
    | rfl
    | exact commandStepA2_estopState now t s

set_option maxHeartbeats 1600000 in
theorem commandStep_scaleOk (now : Nat) (t : Line) (s : PendantState)
    (h : ScaleOk s) : ScaleOk (commandStep now t s).1 := by
  obtain ⟨h1, h2⟩ := h
  unfold commandStep
  dsimp only
  repeat' split
  all_goals first
    | exact ⟨h1, h2⟩
    | exact commandStepA2_scaleOk now t s ⟨h1, h2⟩

theorem processLine_core (now : Nat) (s : PendantState) (t : Line)
    (h : CoreInv s) : CoreInv (processLine now s t).1 := by
  obtain ⟨hL, h1, h2⟩ := h
  unfold processLine
  dsimp only
  split
  · exact ⟨hL, h1, h2⟩
  · have e1 := detectStep_core (trimL t) s
    have eS : ScaleOk (detectStep (trimL t) s).1 := by
      rw [ScaleOk, e1.2.2.1, e1.2.2.2]
      exact ⟨h1, h2⟩
    refine ⟨?_, commandStep_scaleOk now (trimL t) _ eS⟩
    rw [commandStep_systemLocked, commandStep_estopState, e1.1, e1.2.1]
    exact hL

theorem processSerialCommands_core (now : Nat) (lines : List Line)
    (s : PendantState) (h : CoreInv s) :
    CoreInv (processSerialCommands now lines s).1 := by
  unfold processSerialCommands
  suffices hgen : ∀ (acc : PendantState × List OutMsg), CoreInv acc.1 →
      CoreInv (lines.foldl
        (fun (acc : PendantState × List OutMsg) l =>
          let r := processLine now acc.1 l
          (r.1, acc.2 ++ r.2)) acc).1 by
    exact hgen (s, []) h
  induction lines with
  | nil => intro acc hacc; exact hacc
  | cons l rest ih =>
    intro acc hacc
    exact ih _ (processLine_core now acc.1 l hacc)

theorem loopHandlers_core (i : LoopIn) (s : PendantState)
    (hL : s.systemLocked = true ↔ s.currentEstopState ≠ ESTOP_RELEASED) :
    ((loopHandlers i s).1.systemLocked = true ↔
      (loopHandlers i s).1.currentEstopState ≠ ESTOP_RELEASED) ∧
    (loopHandlers i s).1.encoderScale = s.encoderScale ∧
    (loopHandlers i s).1.scaledEncoderPosition = s.scaledEncoderPosition := by
  unfold loopHandlers
  dsimp only
  have E := handleEstop_core i.now i.estopRaw
    { s with encAedges := s.encAedges + (i.pulses : Int) } hL
  set s1 := (handleEstop i.now i.estopRaw
    { s with encAedges := s.encAedges + (i.pulses : Int) }).1 with hs1
  have B := handleBothButtons_core i.now i.btn1Raw i.btn2Raw s1
  set s2 := (handleBothButtons i.now i.btn1Raw i.btn2Raw s1).1 with hs2
  have B1 := handleButton1_core i.now i.btn1Raw s2
  set s3 := (handleButton1 i.now i.btn1Raw s2).1 with hs3
  have B2 := handleButton2_core i.now i.btn2Raw s3
  set s4 := (handleButton2 i.now i.btn2Raw s3).1 with hs4
  have T := handleToggleSwitch_core i.now i.toggleRaw s4
  set s5 := (handleToggleSwitch i.now i.toggleRaw s4).1 with hs5
  have P := handlePowerManagement_core i.now s5
  refine ⟨?_, ?_, ?_⟩
  · rw [P.1, P.2.1, T.1, T.2.1, B2.1, B2.2.1, B1.1, B1.2.1, B.1, B.2.1]
    exact E.1
  · rw [P.2.2.1, T.2.2.1, B2.2.2.1, B1.2.2.1, B.2.2.1]
    exact E.2.1
  · rw [P.2.2.2, T.2.2.2, B2.2.2.2, B1.2.2.2, B.2.2.2]
    exact E.2.2

theorem loopUIFlags_core (now : Nat) (s : PendantState) :
    (loopUIFlags now s).systemLocked = s.systemLocked ∧
    (loopUIFlags now s).currentEstopState = s.currentEstopState ∧
    (loopUIFlags now s).encoderScale = s.encoderScale ∧
    (loopUIFlags now s).scaledEncoderPosition = s.scaledEncoderPosition := by
  unfold loopUIFlags
  dsimp only
  repeat' split
  all_goals exact ⟨rfl, rfl, rfl, rfl⟩

theorem loopStep_core (i : LoopIn) (s : PendantState) (h : CoreInv s) :
    CoreInv (loopStep i s).1 := by
  obtain ⟨hL, h1, h2⟩ := h
  unfold loopStep
  dsimp only
  have H := loopHandlers_core i s hL
  set s6 := (loopHandlers i s).1 with hs6
  have hInv6 : CoreInv s6 := by
    refine ⟨H.1, ?_, ?_⟩
    · rw [H.2.1]; exact h1
    · rw [H.2.1, H.2.2]; exact h2
  obtain ⟨k0, k1, k2⟩ := hInv6
  split
  · have EN := handleEncoder_core i.now i.encB s6 k1 k2
    set s7 := (handleEncoder i.now i.encB s6).1 with hs7
    have hInv7 : CoreInv s7 := by
      refine ⟨?_, ?_, ?_⟩
      · rw [EN.1, EN.2.1]; exact k0
      · rw [EN.2.2.1]; exact k1
      · exact EN.2.2.2
    have PS := processSerialCommands_core i.now i.serial s7 hInv7
    set s8 := (processSerialCommands i.now i.serial s7).1 with hs8
    obtain ⟨m0, m1, m2⟩ := PS
    split
    · exact ⟨m0, m1, m2⟩
    · have U := loopUIFlags_core i.now s8
      refine ⟨?_, ?_, ?_⟩
      · rw [U.1, U.2.1]; exact m0
      · rw [U.2.2.1]; exact m1
      · rw [U.2.2.1, U.2.2.2]; exact m2
  · exact ⟨k0, k1, k2⟩

theorem reachable_coreInv (s : PendantState) (h : Reachable s) : CoreInv s := by
  induction h with
  | init =>
    refine ⟨by decide, by decide, by decide⟩
  | step s' i _ ih => exact loopStep_core i s' ih

/-! Branch analysis of the serial-command chain: lemmas that skip over the
chain's non-matching branches, for lines of known shape. -/

theorem ne_true_of_false {b : Bool} (h : b = false) : ¬ (b = true) := by simp [h]

theorem detectStep_skip (t : Line) (s : PendantState) (h : detectsLine t = false) :
    detectStep t s = (s, []) := by
  simp only [detectsLine, Bool.or_eq_false_iff] at h
  obtain ⟨⟨⟨⟨h1, h2⟩, h3⟩, h4⟩, h5⟩ := h
  unfold detectStep
  rw [if_neg (ne_true_of_false h1), if_neg (ne_true_of_false h2),
      if_neg (ne_true_of_false h3), if_neg (ne_true_of_false h4),
      if_neg (ne_true_of_false h5)]

theorem commandStep_toA2 (now : Nat) (t : Line) (s : PendantState)
    (h1 : startsWithL (str "LCD:SOLID,") t = false)
    (h2 : startsWithL (str "LCD:WHEEL,") t = false)
    (h3 : startsWithL (str "MACHINE:") t = false)
    (h4 : startsWithL (str "UNITS:") t = false) :
    commandStep now t s = commandStepA2 now t s := by
  unfold commandStep
  rw [if_neg (ne_true_of_false h1), if_neg (ne_true_of_false h2),
      if_neg (ne_true_of_false h3), if_neg (ne_true_of_false h4)]

theorem commandStepA2_toB (now : Nat) (t : Line) (s : PendantState)
    (h1 : startsWithL (str "SOFTWARE:") t = false)
    (h2 : t ≠ str "HOST:HELLO") (h3 : t ≠ str "ARM:ENABLE")
    (h4 : t ≠ str "ARM:DISABLE") (h5 : t ≠ str "HOST:PING") :
    commandStepA2 now t s = commandStepB now t s := by
  unfold commandStepA2
  rw [if_neg (ne_true_of_false h1), if_neg h2, if_neg h3, if_neg h4, if_neg h5]

theorem commandStepB_toC (now : Nat) (t : Line) (s : PendantState)
    (h1 : startsWithL (str "MOTION:STATE,") t = false)
    (h2 : startsWithL (str "COORD:ACTIVE,") t = false)
    (h3 : startsWithL (str "COORD:VIEW,") t = false)
    (h4 : startsWithL (str "OFFSET:") t = false)
    (h5 : startsWithL (str "POS:WCS,") t = false)
    (h6 : startsWithL (str "POS:MCS,") t = false)
    (h7 : startsWithL (str "POS:RESET") t = false) :
    commandStepB now t s = commandStepC now t s := by
  unfold commandStepB
  rw [if_neg (ne_true_of_false h1), if_neg (ne_true_of_false h2),
      if_neg (ne_true_of_false h3), if_neg (ne_true_of_false h4),
      if_neg (ne_true_of_false h5), if_neg (ne_true_of_false h6),
      if_neg (ne_true_of_false h7)]

theorem commandStepC_skipAll (now : Nat) (t : Line) (s : PendantState)
    (h1 : t ≠ str "POS:GET")
    (h2 : startsWithL (str "POS:SET,") t = false)
    (h3 : startsWithL (str "ENCODER:SCALE,") t = false)
    (h4 : t ≠ str "MACHINE:ZERO") (h5 : t ≠ str "ENCODER:GET")
    (h6 : startsWithL (str "LCD:BRIGHTNESS,") t = false) :
    commandStepC now t s = (s, []) := by
  unfold commandStepC
  rw [if_neg h1, if_neg (ne_true_of_false h2), if_neg (ne_true_of_false h3),
      if_neg h4, if_neg h5, if_neg (ne_true_of_false h6)]

theorem commandStep_unrecognized (now : Nat) (t : Line) (s : PendantState)
    (h : recognizedLine t = false) :
    commandStep now t s = (s, []) := by
  simp only [recognizedLine, Bool.or_eq_false_iff, decide_eq_false_iff_not] at h
  obtain ⟨⟨⟨⟨⟨⟨⟨⟨⟨⟨⟨⟨⟨⟨⟨⟨⟨⟨⟨⟨⟨hA1, hA2⟩, hA3⟩, hA4⟩, hS⟩, hH⟩, hE1⟩, hE2⟩,
    hP1⟩, hM1⟩, hC1⟩, hC2⟩, hO⟩, hW⟩, hMc⟩, hR⟩, hG⟩, hPS⟩, hES⟩, hMZ⟩, hEG⟩, hB⟩ := h
  rw [commandStep_toA2 now t s hA1 hA2 hA3 hA4,
      commandStepA2_toB now t s hS hH hE1 hE2 hP1,
      commandStepB_toC now t s hM1 hC1 hC2 hO hW hMc hR,
      commandStepC_skipAll now t s hG hPS hES hMZ hEG hB]

theorem motionGate_frame (now : Nat) (s s' : PendantState)
    (h1 : s'.hostArmed = s.hostArmed) (h2 : s'.lastHostPing = s.lastHostPing)
    (h3 : s'.hostMotionState = s.hostMotionState) :
    motionGate now s' = motionGate now s := by
  rw [motionGate, motionGate, h1, h2, h3]

theorem processLine_unrecognized (now : Nat) (s : PendantState) (t : Line)
    (hd : detectsLine (trimL t) = false) (hr : recognizedLine (trimL t) = false) :
    processLine now s t = (s, []) := by
  unfold processLine
  dsimp only
  by_cases hlen : (trimL t).length = 0
  · rw [if_pos hlen]
  · rw [if_neg hlen, detectStep_skip _ _ hd]
    dsimp only
    rw [commandStep_unrecognized now _ s hr]
    simp

theorem commandStep_skip_incomp (now : Nat) (s : PendantState) (q ext : Line)
    (hp : ∀ p ∈ cmdPrefixes, ¬ p <+: q ∧ ¬ q <+: p)
    (he : ∀ r ∈ cmdEqLines, ¬ q <+: r) :
    commandStep now (q ++ ext) s = (s, []) := by
  have P : ∀ p ∈ cmdPrefixes, startsWithL p (q ++ ext) = false := fun p hm =>
    startsWithL_of_ne p q ext (hp p hm).1 (hp p hm).2
  have E : ∀ r ∈ cmdEqLines, q ++ ext ≠ r := fun r hm => append_ne q ext r (he r hm)
  rw [commandStep_toA2 now _ s (P _ (by decide)) (P _ (by decide)) (P _ (by decide))
        (P _ (by decide)),
      commandStepA2_toB now _ s (P _ (by decide)) (E _ (by decide)) (E _ (by decide))
        (E _ (by decide)) (E _ (by decide)),
      commandStepB_toC now _ s (P _ (by decide)) (P _ (by decide)) (P _ (by decide))
        (P _ (by decide)) (P _ (by decide)) (P _ (by decide)) (P _ (by decide)),
      commandStepC_skipAll now _ s (E _ (by decide)) (P _ (by decide)) (P _ (by decide))
        (E _ (by decide)) (E _ (by decide)) (P _ (by decide))]

theorem processLine_grblDetect (now : Nat) (s : PendantState) (q ext : Line)
    (hq : q = str "ok" ∨ q = str "error:" ∨ q = str "ALARM:" ∨ q = str "$")
    (htrim : trimL (q ++ ext) = q ++ ext) :
    processLine now s (q ++ ext) =
      (if machineDefaultish s.currentMachine = true then
        ({ s with currentMachine := MACHINE_UGS, currentProtocol := PROTOCOL_GRBL,
                  needsFullRedraw := true }, [OutMsg.ln "AUTO-DETECTED:UGS/GRBL"])
      else (s, [])) := by
  have hdet : grblDetectCond (q ++ ext) = true := by
    rcases hq with rfl | rfl | rfl | rfl <;>
      simp [grblDetectCond, startsWithL_append_self]
  have hskip : ∀ s' : PendantState, commandStep now (q ++ ext) s' = (s', []) := by
    intro s'
    rcases hq with rfl | rfl | rfl | rfl <;>
      exact commandStep_skip_incomp now s' _ ext (by decide) (by decide)
  have hlen : ¬ ((q ++ ext).length = 0) := by
    have h2 : q.length ≠ 0 := by
      rcases hq with rfl | rfl | rfl | rfl <;> decide
    rw [List.length_append]
    omega
  have hdstep : detectStep (q ++ ext) s =
      if machineDefaultish s.currentMachine = true then
        ({ s with currentMachine := MACHINE_UGS, currentProtocol := PROTOCOL_GRBL,
                  needsFullRedraw := true }, [OutMsg.ln "AUTO-DETECTED:UGS/GRBL"])
      else (s, []) := by
    unfold detectStep
    rw [if_pos hdet]
  unfold processLine
  dsimp only
  rw [htrim, if_neg hlen, hdstep]
  by_cases hm : machineDefaultish s.currentMachine = true
  · rw [if_pos hm]
    dsimp only
    rw [hskip _]
    simp
  · rw [if_neg hm]
    dsimp only
    rw [hskip _]
    simp

/-! The claim theorems. -/

set_option maxRecDepth 40000

/-- C2: In every reachable state, whenever the E-stop state is not released
(`currentEstopState ≠ ESTOP_RELEASED`), the derived `systemLocked` flag is
true, regardless of the arming flag (the two are in fact always equivalent:
`sendUniversalEstopCommand` is the only writer of `systemLocked` and is
invoked exactly at the E-stop state transitions). -/
theorem C2_estop_implies_systemLocked (s : PendantState) (h : Reachable s) :
    s.systemLocked = true ↔ s.currentEstopState ≠ ESTOP_RELEASED :=
  (reachable_coreInv s h).1

theorem C2_estop_implies_systemLocked_witness :
    initialState.systemLocked = true ↔
      initialState.currentEstopState ≠ ESTOP_RELEASED :=
  C2_estop_implies_systemLocked initialState Reachable.init

/-- C5: In every reachable state, the absolute value of the scaled-encoder
remainder accumulator `scaledEncoderPosition` is strictly less than the
current scale divisor `encoderScale`. -/
theorem C5_remainder_bound (s : PendantState) (h : Reachable s) :
    |s.scaledEncoderPosition| < s.encoderScale :=
  (reachable_coreInv s h).2.2

theorem C5_remainder_bound_witness :
    |initialState.scaledEncoderPosition| < initialState.encoderScale :=
  C5_remainder_bound initialState Reachable.init

/-- C1: Evaluation at the failing input of the E-stop scenario.  With the
E-stop input asserted continuously (its debounced-in level `pressed = !raw`
reads `true` from `t = 100 ms` on, far longer than the 100 ms debounce),
`ARM:ENABLE` accepted and the heartbeat fresh, the encoder path still emits
a jog command at `t = 500 ms`, and the E-stop state never leaves
`ESTOP_RELEASED`: the `handleEstop` debounce latch (`last` is updated only
inside the debounce-passed block, so a changed level resets `dbT` on every
iteration) prevents any E-stop transition from ever registering, so the
claimed blocking never happens. -/
theorem C1_estop_input_does_not_block_motion :
    emitsMotion (loopRun initialState c1Trace).2 = true ∧
    (loopRun initialState c1Trace).1.currentEstopState = ESTOP_RELEASED ∧
    (loopRun initialState c1Trace).1.systemLocked = false ∧
    (loopRun initialState c1Trace).1.hostArmed = true ∧
    (loopRun initialState c1Trace).1.estopPressed = false := by decide

/-- C9: Evaluation at the failing input.  A clean, bounce-free press of
button 1 held for 2200 ms (far above the 1000 ms `LONG_PRESS_THRESHOLD`)
and then released produces no classification at all: nothing is emitted,
the jog distance and the axis never change, and `button1Pressed` is never
even set, because `handleButton1` updates its debounced-state latch `last`
only inside the `(now - dbT) > DEBOUNCE_DELAY` block, so any level change
perpetually resets `dbT` and the press can never be registered. -/
theorem C9_long_press_never_classified :
    (loopRun initialState c9Trace).2 = [] ∧
    (loopRun initialState c9Trace).1.currentAxis = AXIS_Z ∧
    (loopRun initialState c9Trace).1.currentJogDistance = JOG_SMALL ∧
    (loopRun initialState c9Trace).1.button1Pressed = false := by decide

/-- C7: Evaluation at the failing input.  The both-held gesture (raw-level
based, so it works) enters help mode at `t = 1800 ms` and a second gesture
exits it at `t = 13600 ms`; a short press of button 1 inside help mode has
no effect — but the same press after exiting help mode also has no effect
(no axis change, no `AXIS:` echo, no output at all), because single-button
classification never fires in any mode (same debounce-latch slip as C9),
and the handlers contain no view-mode guard that could implement the
claimed suppress-then-resume behaviour. -/
theorem C7_help_mode_button_trace :
    (loopRun initialState (c7Trace.take 4)).1.currentViewMode = VIEW_HELP ∧
    (loopRun initialState (c7Trace.take 9)).1.currentViewMode = VIEW_HELP ∧
    (loopRun initialState c7Trace).1.currentViewMode = VIEW_NORMAL ∧
    (loopRun initialState c7Trace).2 = [] ∧
    (loopRun initialState c7Trace).1.currentAxis = AXIS_Z := by decide

/-- C4 counterexample: a batch of 3 raw ticks consumed by `handleEncoder`
while the host is not armed is discarded: the raw delta is consumed
(`lastEncoderPos` advances by 3), nothing is emitted, and the remainder is
zeroed, so `scale * (sum of emitted scaled movements) + final remainder`
is `0`, not the consumed `3` — the claim's conservation equation fails on a
gate-blocked step. -/
theorem C4_blocked_step_discards_ticks :
    (handleEncoder 100 true c4State).1.lastEncoderPos - c4State.lastEncoderPos = 3 ∧
    emittedScaledSum (handleEncoder 100 true c4State).2 = 0 ∧
    (handleEncoder 100 true c4State).1.scaledEncoderPosition = 0 ∧
    ¬ (c4State.encoderScale * emittedScaledSum (handleEncoder 100 true c4State).2 +
        (handleEncoder 100 true c4State).1.scaledEncoderPosition =
        (handleEncoder 100 true c4State).1.lastEncoderPos - c4State.lastEncoderPos) := by
  decide

/-- C4 amended: the two-stage remainder-carry scaling itself (the
`scaledEncoderPosition += rawMovement; /; %` stage of `handleEncoder`,
embedded as `scaleStep` / `scaleRun`) conserves ticks over every batch
sequence: the scale factor times the sum of the emitted scaled movements,
plus the final remainder, equals the start remainder plus the total raw
ticks consumed.  Ticks are lost only when the motion-authorization gate
fails (see the counterexample), which zeroes the remainder deliberately. -/
theorem C4_scaling_conserves_ticks (scale rem : Int) (raws : List Int) :
    scale * ((scaleRun scale rem raws).1.sum) + (scaleRun scale rem raws).2 =
      rem + raws.sum := by
  induction raws generalizing rem with
  | nil => simp [scaleRun]
  | cons raw rest ih =>
    unfold scaleRun scaleStep
    dsimp only
    split
    · have h := ih (rem + raw)
      simp only [List.sum_cons]
      rw [mul_add, mul_zero]
      omega
    · have h := ih ((rem + raw).tmod scale)
      have ht := Int.tmod_add_tdiv (rem + raw) scale
      simp only [List.sum_cons]
      rw [mul_add]
      omega

/-- C6 counterexample: after the host explicitly selects the UGS profile
with `MACHINE:UGS`, an inbound line starting with the `Mach3` name token
switches the profile to MACH3 and the dialect to the Mach protocol — the
name-token auto-detection branches carry no default-profile guard, so the
heuristic overrides the explicit selection. -/
theorem C6_autodetect_overrides_explicit :
    c6S1.currentMachine = MACHINE_UGS ∧
    (processLine 0 c6S1 (str "Mach3")).1.currentMachine = MACHINE_MACH3 ∧
    (processLine 0 c6S1 (str "Mach3")).1.currentProtocol = PROTOCOL_MACH := by
  decide

/-- C8 counterexample: after `LCD:SOLID,7,8,9` stores `bgR = 7`, the
recognized line `LCD:SOLID,abc,0,0` has a well-formed comma structure but a
non-numeric first field; Arduino `toInt` yields 0 for it, and the stored
field is overwritten with 0 instead of keeping its previous value 7, so
"the offending field is left at its previous value" fails on the code. -/
theorem C8_malformed_field_overwrites :
    c8S1.bgR = 7 ∧
    (processLine 0 c8S1 (str "LCD:SOLID,abc,0,0")).1.bgR = 0 := by decide

/-- C3: Whenever the encoder path reaches the point where a nonzero scaled
movement is ready to be emitted (`encReady`) but the four-condition
motion-authorization predicate fails, no motion command is emitted and the
pending scaled-encoder remainder accumulator is reset to zero. -/
theorem C3_gate_failure_blocks (now : Nat) (encB : Bool) (s : PendantState)
    (hready : encReady encB s = true)
    (hauth : motionAuthorized now s = false) :
    emitsMotion (encoderJogPath now encB s).2 = false ∧
    (encoderJogPath now encB s).1.scaledEncoderPosition = 0 := by
  simp only [encReady, decide_eq_true_eq] at hready
  obtain ⟨hpow, hes, hpul, hraw, hq⟩ := hready
  have hg : motionGate now s = false := by
    rcases Bool.and_eq_false_iff.mp hauth with h | h
    · exact h
    · exact absurd hes (by simpa using h)
  unfold encoderJogPath
  rw [if_pos ⟨hpow, hes⟩]
  unfold handleEncoder
  dsimp only
  rw [if_neg hpul, if_neg hraw, if_neg hq]
  simp only [motionGate_frame now s]
  have hn : ¬ (motionGate now s = true) := by simp [hg]
  rw [if_pos hn]
  exact ⟨rfl, rfl⟩

theorem C3_gate_failure_blocks_witness :
    encReady true { initialState with encAedges := 3 } = true ∧
    motionAuthorized 100 { initialState with encAedges := 3 } = false ∧
    (emitsMotion (encoderJogPath 100 true { initialState with encAedges := 3 }).2 = false ∧
     (encoderJogPath 100 true
        { initialState with encAedges := 3 }).1.scaledEncoderPosition = 0) :=
  ⟨by decide, by decide,
   C3_gate_failure_blocks 100 true { initialState with encAedges := 3 }
     (by decide) (by decide)⟩

/-- C6 amended: the auto-detection guard is branch-specific, not global.  A
trimmed inbound line starting with one of the GRBL-style markers (`ok`,
`error:`, `ALARM:`, `$`) switches the profile to UGS/GRBL only while the
current profile is still a default/unset one (FireControl, CutControl or
Manual) and is otherwise ignored entirely; but a line starting with the
`Mach3` name token switches the profile to MACH3 and the Mach dialect
unconditionally, from every state — including one whose profile the host
has already explicitly selected. -/
theorem C6_detection_guard (now : Nat) (s sM : PendantState) (q ext : Line)
    (hq : q = str "ok" ∨ q = str "error:" ∨ q = str "ALARM:" ∨ q = str "$")
    (htrim : trimL (q ++ ext) = q ++ ext) :
    ((machineDefaultish s.currentMachine = true →
        processLine now s (q ++ ext) =
          ({ s with currentMachine := MACHINE_UGS, currentProtocol := PROTOCOL_GRBL,
                    needsFullRedraw := true }, [OutMsg.ln "AUTO-DETECTED:UGS/GRBL"])) ∧
     (machineDefaultish s.currentMachine = false →
        processLine now s (q ++ ext) = (s, []))) ∧
    ((processLine now sM (str "Mach3")).1.currentMachine = MACHINE_MACH3 ∧
     (processLine now sM (str "Mach3")).1.currentProtocol = PROTOCOL_MACH) := by
  refine ⟨⟨fun hm => ?_, fun hm => ?_⟩, ?_⟩
  · rw [processLine_grblDetect now s q ext hq htrim, if_pos hm]
  · rw [processLine_grblDetect now s q ext hq htrim, if_neg (by simp [hm])]
  · have e : processLine now sM (str "Mach3") =
        ({ sM with currentMachine := MACHINE_MACH3, currentProtocol := PROTOCOL_MACH,
                   needsFullRedraw := true }, [OutMsg.autoDetected "MACH3"]) := rfl
    rw [e]
    exact ⟨rfl, rfl⟩

theorem C6_detection_guard_witness :
    trimL (str "ok" ++ []) = str "ok" ++ [] ∧
    (((machineDefaultish initialState.currentMachine = true →
        processLine 0 initialState (str "ok" ++ []) =
          ({ initialState with currentMachine := MACHINE_UGS,
                               currentProtocol := PROTOCOL_GRBL,
                               needsFullRedraw := true },
           [OutMsg.ln "AUTO-DETECTED:UGS/GRBL"])) ∧
      (machineDefaultish initialState.currentMachine = false →
        processLine 0 initialState (str "ok" ++ []) = (initialState, []))) ∧
     ((processLine 0 initialState (str "Mach3")).1.currentMachine = MACHINE_MACH3 ∧
      (processLine 0 initialState (str "Mach3")).1.currentProtocol = PROTOCOL_MACH)) :=
  ⟨by decide,
   C6_detection_guard 0 initialState initialState (str "ok") [] (Or.inl rfl) (by decide)⟩

/-- C8 amended: parsing is total and unrecognized lines are ignored: a line
that matches neither an auto-detection heuristic nor a recognized command
leaves the state unchanged and emits nothing; and within a recognized
`POS:WCS,` line whose `X,`/`,Y,`/`,Z,` field markers do not parse, the whole
update is skipped and every stored field keeps its previous value.  (A
present-but-non-numeric numeric field, however, is stored as Arduino
`toInt`/`toFloat`'s failure value 0 — see the counterexample.) -/
theorem C8_robust_parsing (now : Nat) (s : PendantState) (t u : Line)
    (hd : detectsLine (trimL t) = false) (hr : recognizedLine (trimL t) = false)
    (hdu : detectsLine (str "POS:WCS," ++ u) = false)
    (htu : trimL (str "POS:WCS," ++ u) = str "POS:WCS," ++ u)
    (hm : parseXYZTail (dropSpaces u) = none) :
    processLine now s t = (s, []) ∧
    processLine now s (str "POS:WCS," ++ u) = (s, []) := by
  refine ⟨processLine_unrecognized now s t hd hr, ?_⟩
  have hsub : subFrom (str "POS:WCS," ++ u) 8 = u := by
    show (str "POS:WCS," ++ u).drop 8 = u
    rw [show (8 : Nat) = (str "POS:WCS,").length from rfl]
    exact List.drop_left _ _
  have hB : commandStepB now (str "POS:WCS," ++ u) s = (s, []) := by
    unfold commandStepB
    rw [if_neg (ne_true_of_false (startsWithL_of_ne _ _ _ (by decide) (by decide))),
        if_neg (ne_true_of_false (startsWithL_of_ne _ _ _ (by decide) (by decide))),
        if_neg (ne_true_of_false (startsWithL_of_ne _ _ _ (by decide) (by decide))),
        if_neg (ne_true_of_false (startsWithL_of_ne _ _ _ (by decide) (by decide))),
        if_pos (startsWithL_append_self (str "POS:WCS,") u)]
    rw [hsub, hm]
  have hlen : ¬ ((str "POS:WCS," ++ u).length = 0) := by
    have h2 : (str "POS:WCS,").length ≠ 0 := by decide
    rw [List.length_append]
    omega
  unfold processLine
  dsimp only
  rw [htu, if_neg hlen, detectStep_skip _ _ hdu]
  dsimp only
  rw [commandStep_toA2 now _ s (startsWithL_of_ne _ _ _ (by decide) (by decide))
        (startsWithL_of_ne _ _ _ (by decide) (by decide))
        (startsWithL_of_ne _ _ _ (by decide) (by decide))
        (startsWithL_of_ne _ _ _ (by decide) (by decide)),
      commandStepA2_toB now _ s (startsWithL_of_ne _ _ _ (by decide) (by decide))
        (append_ne _ _ _ (by decide)) (append_ne _ _ _ (by decide))
        (append_ne _ _ _ (by decide)) (append_ne _ _ _ (by decide)),
      hB]
  simp

theorem C8_robust_parsing_witness :
    detectsLine (trimL (str "FOO")) = false ∧
    recognizedLine (trimL (str "FOO")) = false ∧
    detectsLine (str "POS:WCS," ++ str "garbage") = false ∧
    trimL (str "POS:WCS," ++ str "garbage") = str "POS:WCS," ++ str "garbage" ∧
    parseXYZTail (dropSpaces (str "garbage")) = none ∧
    (processLine 0 initialState (str "FOO") = (initialState, []) ∧
     processLine 0 initialState (str "POS:WCS," ++ str "garbage") = (initialState, [])) :=
  ⟨by decide, by decide, by decide, by decide, rfl,
   C8_robust_parsing 0 initialState (str "FOO") (str "garbage")
     (by decide) (by decide) (by decide) (by decide) rfl⟩

/-- C10: For an inbound `ENCODER:SCALE,<digits>` line: if the parsed value
`n` is within 1..10 the encoder scale divisor is set to `n`, the pending
scaled-encoder remainder accumulator is reset to zero, and the
`ENCODER:SCALE:<n>` acknowledgement is emitted; if `n` is outside 1..10
the whole state — scale divisor and remainder included — is left unchanged
and nothing is emitted. -/
theorem C10_encoder_scale (now : Nat) (s : PendantState) (ds : Line)
    (hds : ∀ c ∈ ds, c.isDigit = true) :
    (1 ≤ toIntL ds ∧ toIntL ds ≤ 10 →
       processLine now s (str "ENCODER:SCALE," ++ ds) =
         ({ s with encoderScale := toIntL ds, scaledEncoderPosition := 0 },
          [OutMsg.scaleSet (toIntL ds)])) ∧
    (¬ (1 ≤ toIntL ds ∧ toIntL ds ≤ 10) →
       processLine now s (str "ENCODER:SCALE," ++ ds) = (s, [])) := by
  have hWS : ∀ c ∈ str "ENCODER:SCALE," ++ ds, isWS c = false := by
    intro c hc
    rcases List.mem_append.mp hc with h | h
    · exact (by decide : ∀ c ∈ str "ENCODER:SCALE,", isWS c = false) c h
    · exact digit_not_isWS c (hds c h)
  have htrim := trimL_eq_self _ hWS
  have hnotin : ∀ c : Char, c.isDigit = false → c ∉ str "ENCODER:SCALE," →
      c ∉ str "ENCODER:SCALE," ++ ds := by
    intro c hdig hcp hmem
    rcases List.mem_append.mp hmem with h | h
    · exact hcp h
    · exact absurd (hds c h) (by simp [hdig])
  have hdet : detectsLine (str "ENCODER:SCALE," ++ ds) = false := by
    simp only [detectsLine, grblDetectCond, machDetectCond, uccncDetectCond,
      linuxDetectCond, carbideDetectCond,
      startsWithL_of_ne (str "ok") (str "ENCODER:SCALE,") ds (by decide) (by decide),
      startsWithL_of_ne (str "error:") (str "ENCODER:SCALE,") ds (by decide) (by decide),
      startsWithL_of_ne (str "ALARM:") (str "ENCODER:SCALE,") ds (by decide) (by decide),
      startsWithL_of_ne (str "$") (str "ENCODER:SCALE,") ds (by decide) (by decide),
      startsWithL_of_ne (str "Mach3") (str "ENCODER:SCALE,") ds (by decide) (by decide),
      startsWithL_of_ne (str "Mach4") (str "ENCODER:SCALE,") ds (by decide) (by decide),
      startsWithL_of_ne (str "UCCNC") (str "ENCODER:SCALE,") ds (by decide) (by decide),
      startsWithL_of_ne (str "LINUXCNC") (str "ENCODER:SCALE,") ds (by decide) (by decide),
      indexOfStr_neg (str "ENCODER:SCALE," ++ ds) (str "Artsoft") 'r' (by decide)
        (hnotin 'r' (by decide) (by decide)),
      indexOfStr_neg (str "ENCODER:SCALE," ++ ds) (str "cncdrive") 'c' (by decide)
        (hnotin 'c' (by decide) (by decide)),
      indexOfStr_neg (str "ENCODER:SCALE," ++ ds) (str "emc") 'e' (by decide)
        (hnotin 'e' (by decide) (by decide)),
      indexOfStr_neg (str "ENCODER:SCALE," ++ ds) (str "axis") 'a' (by decide)
        (hnotin 'a' (by decide) (by decide)),
      indexOfStr_neg (str "ENCODER:SCALE," ++ ds) (str "Carbide") 'a' (by decide)
        (hnotin 'a' (by decide) (by decide)),
      indexOfStr_neg (str "ENCODER:SCALE," ++ ds) (str "Shapeoko") 'h' (by decide)
        (hnotin 'h' (by decide) (by decide)),
      indexOfStr_neg (str "ENCODER:SCALE," ++ ds) (str "Nomad") 'o' (by decide)
        (hnotin 'o' (by decide) (by decide))]
    decide
  have hsub : subFrom (str "ENCODER:SCALE," ++ ds) 14 = ds := by
    show (str "ENCODER:SCALE," ++ ds).drop 14 = ds
    rw [show (14 : Nat) = (str "ENCODER:SCALE,").length from rfl]
    exact List.drop_left _ _
  have hlen : ¬ ((str "ENCODER:SCALE," ++ ds).length = 0) := by
    have h2 : (str "ENCODER:SCALE,").length ≠ 0 := by decide
    rw [List.length_append]
    omega
  have hC : commandStepC now (str "ENCODER:SCALE," ++ ds) s =
      (if toIntL ds ≥ 1 ∧ toIntL ds ≤ 10 then
         ({ s with encoderScale := toIntL ds, scaledEncoderPosition := 0 },
          [OutMsg.scaleSet (toIntL ds)])
       else (s, [])) := by
    unfold commandStepC
    rw [if_neg (append_ne _ _ _ (by decide)),
        if_neg (ne_true_of_false (startsWithL_of_ne _ _ _ (by decide) (by decide))),
        if_pos (startsWithL_append_self (str "ENCODER:SCALE,") ds)]
    dsimp only
    rw [hsub]
  have hall : processLine now s (str "ENCODER:SCALE," ++ ds) =
      (if toIntL ds ≥ 1 ∧ toIntL ds ≤ 10 then
         ({ s with encoderScale := toIntL ds, scaledEncoderPosition := 0 },
          [OutMsg.scaleSet (toIntL ds)])
       else (s, [])) := by
    unfold processLine
    dsimp only
    rw [htrim, if_neg hlen, detectStep_skip _ _ hdet]
    dsimp only
    rw [commandStep_toA2 now _ s (startsWithL_of_ne _ _ _ (by decide) (by decide))
          (startsWithL_of_ne _ _ _ (by decide) (by decide))
          (startsWithL_of_ne _ _ _ (by decide) (by decide))
          (startsWithL_of_ne _ _ _ (by decide) (by decide)),
        commandStepA2_toB now _ s (startsWithL_of_ne _ _ _ (by decide) (by decide))
          (append_ne _ _ _ (by decide)) (append_ne _ _ _ (by decide))
          (append_ne _ _ _ (by decide)) (append_ne _ _ _ (by decide)),
        commandStepB_toC now _ s (startsWithL_of_ne _ _ _ (by decide) (by decide))
          (startsWithL_of_ne _ _ _ (by decide) (by decide))
          (startsWithL_of_ne _ _ _ (by decide) (by decide))
          (startsWithL_of_ne _ _ _ (by decide) (by decide))
          (startsWithL_of_ne _ _ _ (by decide) (by decide))
          (startsWithL_of_ne _ _ _ (by decide) (by decide))
          (startsWithL_of_ne _ _ _ (by decide) (by decide)),
        hC]
    by_cases hrange : toIntL ds ≥ 1 ∧ toIntL ds ≤ 10
    · rw [if_pos hrange]
      simp
    · rw [if_neg hrange]
      simp
  constructor
  · intro hrange
    rw [hall, if_pos (⟨hrange.1, hrange.2⟩ : toIntL ds ≥ 1 ∧ toIntL ds ≤ 10)]
  · intro hrange
    rw [hall, if_neg (fun hc => hrange ⟨hc.1, hc.2⟩)]

theorem C10_encoder_scale_witness :
    (∀ c ∈ str "5", c.isDigit = true) ∧
    (1 ≤ toIntL (str "5") ∧ toIntL (str "5") ≤ 10) ∧
    processLine 0 initialState (str "ENCODER:SCALE," ++ str "5") =
      ({ initialState with encoderScale := toIntL (str "5"), scaledEncoderPosition := 0 },
       [OutMsg.scaleSet (toIntL (str "5"))]) :=
  ⟨by decide, ⟨by decide, by decide⟩,
   (C10_encoder_scale 0 initialState (str "5") (by decide)).1 ⟨by decide, by decide⟩⟩

end Pendant
